import Mathlib

/-!
Verification of the invoice-parser field-extraction core
(`src/invoice_processor/parsers/`) against its natural-language
specification.

The Python sources are shallowly embedded below.  Conventions used
throughout the embedding:

* Python strings are Lean `String`s; most character work happens on
  `String.data : List Char`.  Python's `str.isdigit` / `str.isalpha` /
  `str.upper` / whitespace handling are modelled on the ASCII range
  (the inputs the parser manipulates -- labels, IBANs, routing numbers,
  amounts -- are ASCII).
* Python floats only enter the code as confidence weights (0.20, 0.015,
  ...) and as parsed amounts.  Confidence scores are represented
  exactly, in integer per-mille (0.20 -> 200, 1.0 -> 1000).  `float(s)`
  is modelled by `pyFloat?` below over the full grammar Python accepts
  on ASCII input: stripped whitespace, an optional sign, digit groups
  with single underscores between digits, an optional fraction and
  `e`/`E` exponent, and the case-insensitive special tokens `inf`,
  `infinity` and `nan`.  An accepted finite literal is represented by
  its exact rational value (the rounding of the literal to an IEEE-754
  double is not modelled); `inf` and `nan` are explicit values of the
  `PyFloat` domain, and the comparisons the code performs on parsed
  floats (`> 0`, `<= 0`) follow Python's ordering, in which every
  comparison with NaN is false.  `int(s)` parsing is modelled by
  `pyInt?` on the decimal forms that can reach it.
* Regular-expression extraction steps (`re.search` over a pattern
  table) that merely *produce candidate strings* are modelled by
  universally quantified candidate parameters, so every theorem about
  the surrounding validation / derivation logic holds for every
  possible behaviour of the regex layer.  Pattern matching that the
  control flow itself depends on (label matching, marker substrings)
  is embedded directly.
-/

/-- Sentinel for an unresolved field (`core/constants.py`, `PARSING_FAILED`). -/
def PARSING_FAILED : String := "PARSING FAILED"

/-- ASCII decimal digit test (models Python `str.isdigit` on ASCII input). -/
def pyDigit (c : Char) : Bool := 48 ≤ c.toNat && c.toNat ≤ 57

/-- ASCII letter test (models Python `str.isalpha` on ASCII input). -/
def pyAlpha (c : Char) : Bool :=
  (65 ≤ c.toNat && c.toNat ≤ 90) || (97 ≤ c.toNat && c.toNat ≤ 122)

/-- ASCII alphanumeric test (models Python `str.isalnum` on ASCII input). -/
def pyAlnum (c : Char) : Bool := pyAlpha c || pyDigit c

/-- Numeric value of a decimal digit character. -/
def digitVal (c : Char) : Nat := c.toNat - 48

/-- Python whitespace characters stripped by `str.strip` / `int` / `float`. -/
def pyWs (c : Char) : Bool :=
  c = ' ' || c = '\t' || c = '\n' || c = Char.ofNat 11 || c = Char.ofNat 12 || c = '\r'

/-- ASCII uppercase of one character (models `str.upper` on ASCII input). -/
def asciiUpper (c : Char) : Char :=
  if 97 ≤ c.toNat ∧ c.toNat ≤ 122 then Char.ofNat (c.toNat - 32) else c

/-- ASCII lowercase of one character (used for `re.IGNORECASE` matching). -/
def asciiLower (c : Char) : Char :=
  if 65 ≤ c.toNat ∧ c.toNat ≤ 90 then Char.ofNat (c.toNat + 32) else c

/-- Character of a decimal digit 0..9 (digit characters emitted by `str`). -/
def digitChar (d : Nat) : Char :=
  match d with
  | 0 => '0' | 1 => '1' | 2 => '2' | 3 => '3' | 4 => '4'
  | 5 => '5' | 6 => '6' | 7 => '7' | 8 => '8' | _ => '9'

/-- Remove every occurrence of a character (Python `str.replace(c, '')`). -/
def removeChar (c : Char) (l : List Char) : List Char := l.filter (fun x => x ≠ c)

/-- Replace every occurrence of a character (Python `str.replace(a, b)` for single chars). -/
def replaceChar (a b : Char) (l : List Char) : List Char :=
  l.map (fun x => if x = a then b else x)

/-- Strip leading and trailing Python whitespace (Python `str.strip`). -/
def stripWs (l : List Char) : List Char :=
  ((l.dropWhile pyWs).reverse.dropWhile pyWs).reverse

/-- Substring containment test (Python `needle in hay`). -/
def containsSub (needle : List Char) : List Char → Bool
  | [] => needle.isEmpty
  | c :: rest => needle.isPrefixOf (c :: rest) || containsSub needle rest

/-- Remove every occurrence of the substring `"CHF"` (Python `str.replace('CHF','')`). -/
def removeCHF : List Char → List Char
  | 'C' :: 'H' :: 'F' :: rest => removeCHF rest
  | c :: rest => c :: removeCHF rest
  | [] => []

/-- Digit run of a Python integer literal: decimal digits with single
underscores allowed between digits, accumulating the value. -/
def parseUDigits (acc : Nat) : List Char → Option Nat
  | [] => some acc
  | c :: rest =>
    if c = '_' then
      match rest with
      | c2 :: rest2 =>
        if pyDigit c2 then parseUDigits (acc * 10 + digitVal c2) rest2 else none
      | [] => none
    else if pyDigit c then parseUDigits (acc * 10 + digitVal c) rest
    else none

/-- Start of the digit run of a Python integer literal (first char must be a digit). -/
def startUDigits : List Char → Option Nat
  | [] => none
  | c :: rest => if pyDigit c then parseUDigits (digitVal c) rest else none

/-- Model of Python `int(s)` on the strings this code can feed it:
surrounding whitespace is stripped, an optional leading `+` sign is
allowed, then decimal digits with optional underscores between digits.
(A `-` sign never reaches `int` here: hyphens are removed beforehand.) -/
def pyInt? (l : List Char) : Option Nat :=
  match stripWs l with
  | [] => none
  | c :: rest => if c = '+' then startUDigits rest else startUDigits (c :: rest)

/-- Value of a list of decimal digit characters. -/
def digitsVal (l : List Char) : Nat := l.foldl (fun a c => a * 10 + digitVal c) 0

/-- Value domain of Python `float(s)`: an exact finite rational (the
exact value of the accepted literal -- rounding to an IEEE-754 double
is not modelled), positive or negative infinity, or NaN. -/
inductive PyFloat where
  | finite (q : ℚ)
  | pinf
  | ninf
  | nan
deriving DecidableEq, Repr

/-- Negation of a parsed float value (applied for a leading `-` sign;
the sign of NaN is unobservable in this code). -/
def pyFloatNeg : PyFloat → PyFloat
  | .finite q => .finite (-q)
  | .pinf => .ninf
  | .ninf => .pinf
  | .nan => .nan

/-- Maximal run of decimal digits with single underscores allowed
between digits (continuation of a `digitpart` of Python's float
grammar after its first digit): accumulated value, number of digits
consumed so far, and the unconsumed remainder. -/
def digitRun : Nat → Nat → List Char → Nat × Nat × List Char
  | acc, k, [] => (acc, k, [])
  | acc, k, c :: rest =>
    if pyDigit c then digitRun (acc * 10 + digitVal c) (k + 1) rest
    else if c = '_' then
      match rest with
      | d :: rest2 =>
        if pyDigit d then digitRun (acc * 10 + digitVal d) (k + 1) rest2
        else (acc, k, c :: rest)
      | [] => (acc, k, [c])
    else (acc, k, c :: rest)

/-- `digitpart` of Python's float grammar: at least one digit, single
underscores allowed between digits; value, digit count and unconsumed
remainder. -/
def floatDigitPart? : List Char → Option (Nat × Nat × List Char)
  | [] => none
  | c :: rest => if pyDigit c then some (digitRun (digitVal c) 1 rest) else none

/-- Mantissa of Python's float grammar (`digitpart ["." [digitpart]]`
or `"." digitpart`): value `n / 10 ^ k`, returned as the pair `(n, k)`
with the unconsumed remainder. -/
def floatMantissa? (l : List Char) : Option (Nat × Nat × List Char) :=
  match floatDigitPart? l with
  | some (ip, _, rest) =>
    match rest with
    | [] => some (ip, 0, [])
    | c :: rest2 =>
      if c = '.' then
        match floatDigitPart? rest2 with
        | some (fp, k, rest3) => some (ip * 10 ^ k + fp, k, rest3)
        | none => some (ip, 0, rest2)
      else some (ip, 0, c :: rest2)
  | none =>
    match l with
    | [] => none
    | c :: rest2 =>
      if c = '.' then
        match floatDigitPart? rest2 with
        | some (fp, k, rest3) => some (fp, k, rest3)
        | none => none
      else none

/-- Exponent of Python's float grammar after the `e`/`E`: an optional
sign followed by a `digitpart` consuming the whole remainder. -/
def floatExpPart? (l : List Char) : Option Int :=
  match l with
  | [] => none
  | c :: rest =>
    if c = '+' then
      match floatDigitPart? rest with
      | some (e, _, r) => if r.isEmpty then some (e : Int) else none
      | none => none
    else if c = '-' then
      match floatDigitPart? rest with
      | some (e, _, r) => if r.isEmpty then some (-(e : Int)) else none
      | none => none
    else
      match floatDigitPart? (c :: rest) with
      | some (e, _, r) => if r.isEmpty then some (e : Int) else none
      | none => none

/-- Exact rational value of the decimal literal `n / 10 ^ k` scaled by
`10 ^ e`. -/
def floatScale (n k : Nat) (e : Int) : ℚ :=
  if (k : Int) ≤ e then mkRat (n * 10 ^ (e - (k : Int)).toNat) 1
  else mkRat n (10 ^ ((k : Int) - e).toNat)

/-- Case-insensitive special tokens `inf` / `infinity` / `nan`
accepted by Python `float(s)`. -/
def floatSpecial? (l : List Char) : Option PyFloat :=
  if l.map asciiLower = ['i', 'n', 'f']
      ∨ l.map asciiLower = ['i', 'n', 'f', 'i', 'n', 'i', 't', 'y'] then
    some PyFloat.pinf
  else if l.map asciiLower = ['n', 'a', 'n'] then some PyFloat.nan
  else none

/-- Unsigned body of Python `float(s)`: a special token, or a mantissa
with an optional `e`/`E` exponent, consuming the whole string. -/
def pyFloatBody? (l : List Char) : Option PyFloat :=
  match floatSpecial? l with
  | some v => some v
  | none =>
    match floatMantissa? l with
    | none => none
    | some (n, k, rest) =>
      match rest with
      | [] => some (PyFloat.finite (mkRat n (10 ^ k)))
      | c :: rest2 =>
        if c = 'e' ∨ c = 'E' then
          match floatExpPart? rest2 with
          | some e => some (PyFloat.finite (floatScale n k e))
          | none => none
        else none

/-- Model of Python `float(s)` on ASCII input: stripped whitespace, an
optional sign, then a decimal literal (underscores between digits,
optional fraction and exponent) or one of the special tokens `inf` /
`infinity` / `nan`, case-insensitively. -/
def pyFloat? (l : List Char) : Option PyFloat :=
  match stripWs l with
  | [] => none
  | c :: rest =>
    if c = '+' then pyFloatBody? rest
    else if c = '-' then (pyFloatBody? rest).map pyFloatNeg
    else pyFloatBody? (c :: rest)

/-- Python comparison `v > 0` on a parsed float (false for NaN). -/
def pyFloatGtZero : PyFloat → Bool
  | .finite q => decide (0 < q)
  | .pinf => true
  | .ninf => false
  | .nan => false

/-- Python comparison `v <= 0` on a parsed float (false for NaN). -/
def pyFloatLeZero : PyFloat → Bool
  | .finite q => decide (q ≤ 0)
  | .pinf => false
  | .ninf => true
  | .nan => false

/-- Python truthiness combined with the sentinel check that the scorer
uses everywhere: `value != PARSING_FAILED and value`. -/
def present (s : String) : Bool := s != PARSING_FAILED && s != ""

/-- Split on one separator character (Python `str.split(sep)` for a
single-character separator: adjacent separators give empty parts and
the empty string gives one empty part). -/
def splitOnChar (sep : Char) : List Char → List (List Char)
  | [] => [[]]
  | c :: rest =>
    if c = sep then [] :: splitOnChar sep rest
    else
      match splitOnChar sep rest with
      | h :: t => (c :: h) :: t
      | [] => [[c]]

/-- Email well-formedness check (`parser_utils.is_valid_email`). -/
def is_valid_email (email : String) : Bool :=
  if email = "" ∨ email = PARSING_FAILED then false
  else if ¬ email.data.contains '@' then false
  else
    match splitOnChar '@' email.data with
    | [locl, domain] =>
      if locl = [] then false
      else if ¬ domain.contains '.' then false
      else (splitOnChar '.' domain).all (fun p => !p.isEmpty)
    | _ => false

/-- The canonical invoice field-set record.  Exactly the keys of
`parser_utils.create_default_result`; every field is a string, with
`PARSING_FAILED` as the sentinel for an unresolved field. -/
structure InvoiceResult where
  sender : String
  recipient : String
  amount : String
  currency : String
  sender_address : String
  recipient_address : String
  sender_email : String
  recipient_email : String
  invoice_number : String
  invoice_date : String
  due_date : String
  tax_amount : String
  tax_rate : String
  tax_id : String
  payment_terms : String
  vehicle_id : String
  original_recipient : String
  vehicle_match_score : String
  bank_name : String
  iban : String
  bic : String
  payment_address : String
  routing_number : String
  account_number : String
  sort_code : String
  payment_method : String
deriving DecidableEq, Repr

/-- Default all-sentinel record (`parser_utils.create_default_result`).
Note that the three vehicle-matching auxiliaries are initialized to
`"N/A"` / `PARSING_FAILED` / `"0.0"` exactly as in the source. -/
def create_default_result : InvoiceResult where
  sender := PARSING_FAILED
  recipient := PARSING_FAILED
  amount := PARSING_FAILED
  currency := PARSING_FAILED
  sender_address := PARSING_FAILED
  recipient_address := PARSING_FAILED
  sender_email := PARSING_FAILED
  recipient_email := PARSING_FAILED
  invoice_number := PARSING_FAILED
  invoice_date := PARSING_FAILED
  due_date := PARSING_FAILED
  tax_amount := PARSING_FAILED
  tax_rate := PARSING_FAILED
  tax_id := PARSING_FAILED
  payment_terms := PARSING_FAILED
  vehicle_id := "N/A"
  original_recipient := PARSING_FAILED
  vehicle_match_score := "0.0"
  bank_name := PARSING_FAILED
  iban := PARSING_FAILED
  bic := PARSING_FAILED
  payment_address := PARSING_FAILED
  routing_number := PARSING_FAILED
  account_number := PARSING_FAILED
  sort_code := PARSING_FAILED
  payment_method := PARSING_FAILED

/-- Sender / recipient part of the confidence score
(`calculate_confidence`, critical-fields bucket), in per-mille:
valid email 200, name longer than 3 characters 150. -/
def partyScore (s : String) : Nat :=
  if present s then
    if s.data.contains '@' && is_valid_email s then 200
    else if 3 < s.length then 150
    else 0
  else 0

/-- Amount part of the confidence score: 100 per-mille when the amount,
after removing dots and turning commas into dots, parses as a positive
float (`calculate_confidence`). -/
def amountScore (s : String) : Nat :=
  if present s then
    match pyFloat? (replaceChar ',' '.' (removeChar '.' s.data)) with
    | some v => if pyFloatGtZero v then 100 else 0
    | none => 0
  else 0

/-- Banking bucket of the confidence score (`calculate_confidence`):
the three banking systems are alternatives selected by an
`if/elif` chain, the bank name adds a flat bonus.  Per-mille. -/
def bankingScore (iban bic routing account sortc pm bank : String) : Nat :=
  (if present iban then
    150 + (if present bic then 100 else 0)
        + (if pm = "SEPA" ∨ pm = "SEPA_INTERNATIONAL" then 50 else 0)
  else if present routing then
    150 + (if present account then 100 else 0) + (if pm = "ACH" then 50 else 0)
  else if present sortc then
    150 + (if present account then 100 else 0) + (if pm = "BACS" then 50 else 0)
  else if present account then 100
  else 0)
  + (if present bank then 50 else 0)

/-- Supporting-fields bucket of the confidence score
(`calculate_confidence`), in per-mille. -/
def suppScore (currency se re sa ra inum idate ddate terms tamt trate tid : String) : Nat :=
  (if present currency then 30 else 0)
  + (if present se && is_valid_email se then 30 else 0)
  + (if present re && is_valid_email re then 30 else 0)
  + (if present sa || present ra then 30 else 0)
  + (if present inum then 20 else 0)
  + (if present idate then 15 else 0)
  + (if present ddate then 10 else 0)
  + (if present terms then 5 else 0)
  + (if present tamt then 15 else 0)
  + (if present trate then 5 else 0)
  + (if present tid then 10 else 0)

/-- Confidence score of a parsing result
(`parser_utils.calculate_confidence`), in exact per-mille (the Python
code sums the same weights as floats in [0,1]): critical fields up to
500, banking bucket capped at 300, supporting bucket capped at 200,
total clamped at 1000. -/
def calculate_confidence (r : InvoiceResult) : Nat :=
  min
    (partyScore r.sender + partyScore r.recipient + amountScore r.amount
      + min (bankingScore r.iban r.bic r.routing_number r.account_number
              r.sort_code r.payment_method r.bank_name) 300
      + min (suppScore r.currency r.sender_email r.recipient_email
              r.sender_address r.recipient_address r.invoice_number
              r.invoice_date r.due_date r.payment_terms r.tax_amount
              r.tax_rate r.tax_id) 200)
    1000

/-- Normalization step of `PatternLibrary.validate_iban`: remove spaces
and hyphens, uppercase. -/
def normalizeIban (s : String) : List Char :=
  (removeChar '-' (removeChar ' ' s.data)).map asciiUpper

/-- Numeric value of a base-36 letter as Python's `int(c, 36)` computes
it for the uppercase letters that survive normalization (A=10..Z=35). -/
def letterVal36 (c : Char) : Nat := (asciiUpper c).toNat - 55

/-- Expansion of one rearranged-IBAN character as performed by
`str(int(c, 36)) if c.isalpha() else c`: a letter becomes the two
decimal digits of its base-36 value, anything else passes through. -/
def expandChar (c : Char) : List Char :=
  if pyAlpha c then
    [digitChar (letterVal36 c / 10), digitChar (letterVal36 c % 10)]
  else [c]

/-- IBAN validator (`PatternLibrary.validate_iban`): normalize, check
length in [15,34], two-letter country prefix, two check digits, rotate
the first four characters to the end, expand letters to their base-36
digits, parse the result with `int` and accept iff the value is
congruent to 1 mod 97. -/
def validate_iban (iban : String) : Bool :=
  if iban = "" then false
  else
    let l := normalizeIban iban
    if l.length < 15 ∨ 34 < l.length then false
    else if ¬ (l.take 2).all pyAlpha then false
    else if ¬ ((l.drop 2).take 2).all pyDigit then false
    else
      match pyInt? (((l.drop 4 ++ l.take 4).map expandChar).flatten) with
      | some n => n % 97 == 1
      | none => false

/-- Step function for the specification-side IBAN value: digits extend
the value in base 10, letters (A=10..Z=35) in base 100. -/
def ibanStep (acc : Nat) (c : Char) : Nat :=
  if pyDigit c then acc * 10 + digitVal c else acc * 100 + letterVal36 c

/-- Specification-side IBAN value of a rearranged candidate: defined
exactly when every character is alphanumeric, in which case it is the
big integer obtained by mapping each letter to its two-digit value
(A=10..Z=35) and concatenating. -/
def ibanValue? (l : List Char) : Option Nat :=
  l.foldl
    (fun acc c => acc.bind fun n =>
      if pyAlnum c then some (ibanStep n c) else none)
    (some 0)

/-- Specification-side IBAN acceptance, following the claim's wording:
after stripping spaces and hyphens and uppercasing, the length is
within [15,34], the first two characters are letters, the next two are
digits, and the number obtained by rotating the first four characters
to the end and mapping each letter to its two-digit value is congruent
to 1 modulo 97. -/
def ibanClaimAccepts (s : String) : Bool :=
  let l := normalizeIban s
  15 ≤ l.length && l.length ≤ 34
    && (l.take 2).all pyAlpha && ((l.drop 2).take 2).all pyDigit
    && match ibanValue? (l.drop 4 ++ l.take 4) with
       | some n => n % 97 == 1
       | none => false

/-- BIC/SWIFT format validator (`PatternLibrary.validate_bic`). -/
def validate_bic (bic : String) : Bool :=
  if bic = "" then false
  else
    let l := (removeChar ' ' bic.data).map asciiUpper
    if l.length ≠ 8 ∧ l.length ≠ 11 then false
    else if ¬ (l.take 4).all pyAlpha then false
    else if ¬ ((l.drop 4).take 2).all pyAlpha then false
    else if ¬ ((l.drop 6).take 2).all pyAlnum then false
    else if l.length = 11 ∧ ¬ ((l.drop 8).take 3).all pyAlnum then false
    else true

/-- ABA routing-number validator (`PatternLibrary.validate_aba_routing`):
exactly nine digits, not one of three explicitly rejected degenerate
strings, first two digits in a Federal-Reserve / thrift district range,
weighted checksum divisible by ten. -/
def validate_aba_routing (routing : String) : Bool :=
  if routing = "" ∨ routing.length ≠ 9 ∨ ¬ routing.data.all pyDigit then false
  else if routing = "000000000" ∨ routing = "111111111" ∨ routing = "999999999" then false
  else
    match routing.data with
    | [d1, d2, d3, d4, d5, d6, d7, d8, d9] =>
      let ft := digitVal d1 * 10 + digitVal d2
      if ¬ ((1 ≤ ft ∧ ft ≤ 12) ∨ (21 ≤ ft ∧ ft ≤ 32) ∨ (61 ≤ ft ∧ ft ≤ 72) ∨ ft = 80) then
        false
      else
        (3 * (digitVal d1 + digitVal d4 + digitVal d7)
          + 7 * (digitVal d2 + digitVal d5 + digitVal d8)
          + (digitVal d3 + digitVal d6 + digitVal d9)) % 10 == 0
    | _ => false

/-- Specification-side ABA checksum condition on a nine-digit string. -/
def abaChecksumOK (l : List Char) : Bool :=
  match l with
  | [d1, d2, d3, d4, d5, d6, d7, d8, d9] =>
    (3 * (digitVal d1 + digitVal d4 + digitVal d7)
      + 7 * (digitVal d2 + digitVal d5 + digitVal d8)
      + (digitVal d3 + digitVal d6 + digitVal d9)) % 10 == 0
  | _ => false

/-- Specification-side ABA district condition: the number formed by the
first two digits lies in a valid district range. -/
def abaDistrictOK (l : List Char) : Bool :=
  match l with
  | d1 :: d2 :: _ =>
    let ft := digitVal d1 * 10 + digitVal d2
    decide ((1 ≤ ft ∧ ft ≤ 12) ∨ (21 ≤ ft ∧ ft ≤ 32) ∨ (61 ≤ ft ∧ ft ≤ 72) ∨ ft = 80)
  | _ => false

/-- UK sort-code validator (`PatternLibrary.validate_sort_code`):
exactly six digits after removing hyphens and spaces. -/
def validate_sort_code (sort_code : String) : Bool :=
  let clean := removeChar ' ' (removeChar '-' sort_code.data)
  clean.length = 6 && clean.all pyDigit

/-- Sort-code normalization (`PatternLibrary.normalize_sort_code`):
rewrite the six digits as `DD-DD-DD`. -/
def normalize_sort_code (sort_code : String) : String :=
  let clean := removeChar ' ' (removeChar '-' sort_code.data)
  String.mk (clean.take 2) ++ "-" ++ String.mk ((clean.drop 2).take 2)
    ++ "-" ++ String.mk ((clean.drop 4).take 2)

/-- Result record of `PatternLibrary.normalize_amount`. -/
structure AmountResult where
  amount : Option PyFloat
  raw_amount : String
  currency : Option String
  locale : Option String
  valid : Bool
deriving DecidableEq, Repr

/-- Index of the last occurrence of a character, `-1` when absent
(Python `str.rfind`). -/
def rfindChar (c : Char) (l : List Char) : Int :=
  (l.foldl (fun (p : Int × Int) x => (p.1 + 1, if x = c then p.1 + 1 else p.2))
    (-1, -1)).2

/-- Condition `has_comma_decimal` of `normalize_amount`: a comma occurs
and the last comma comes after the last dot. -/
def hasCommaDecimal (clean : List Char) : Bool :=
  clean.contains ',' && rfindChar ',' clean > rfindChar '.' clean

/-- Condition `has_dot_decimal` of `normalize_amount`: a dot occurs and
the last dot comes after the last comma. -/
def hasDotDecimal (clean : List Char) : Bool :=
  clean.contains '.' && rfindChar '.' clean > rfindChar ',' clean

/-- Separator-normalization step of `normalize_amount`: under the
German/EUR hint a comma-decimal string has its dots removed and its
commas turned into dots, otherwise commas are removed; under the
default hint a dot-decimal string has its commas removed, otherwise
commas are turned into dots (dots are kept). -/
def sepNormalize (clean : List Char) (deHint : Bool) : List Char :=
  if deHint then
    if hasCommaDecimal clean || (clean.contains ',' && !clean.contains '.') then
      replaceChar ',' '.' (removeChar '.' clean)
    else removeChar ',' clean
  else
    if hasDotDecimal clean || (clean.contains '.' && !clean.contains ',') then
      removeChar ',' clean
    else replaceChar ',' '.' clean

/-- Final step of `normalize_amount`: parse the normalized string as a
float; a failed parse or a value comparing `<= 0` yields the failure
marker (`valid = false`, no amount, no locale). -/
def amountFinish (raw : String) (currency : Option String) (locale : String)
    (normalized : List Char) : AmountResult :=
  match pyFloat? normalized with
  | some v =>
    if pyFloatLeZero v then ⟨none, raw, currency, none, false⟩
    else ⟨some v, raw, currency, some locale, true⟩
  | none => ⟨none, raw, currency, none, false⟩

/-- Currency-symbol removal and stripping step of `normalize_amount`. -/
def cleanAmount (s : String) : List Char :=
  stripWs (removeCHF (removeChar '£' (removeChar '$' (removeChar '€' s.data))))

/-- Amount normalization (`PatternLibrary.normalize_amount`). -/
def normalize_amount (amount_str : String) (currency : Option String)
    (language : String) : AmountResult :=
  if amount_str = "" ∨ amount_str = "PARSING FAILED" then
    ⟨none, amount_str, currency, none, false⟩
  else
    let clean := cleanAmount amount_str
    if currency = some "EUR" ∨ language = "de" then
      amountFinish amount_str currency "de_DE" (sepNormalize clean true)
    else
      amountFinish amount_str currency "en_US" (sepNormalize clean false)

/-- Python truthiness filter on an optional extraction result: an empty
string is falsy (`if not value: ...`). -/
def truthyOpt : Option String → Option String
  | some "" => none
  | some s => some s
  | none => none

/-- Python `str.isdigit`: non-empty and all (ASCII) digits. -/
def pyIsDigit (s : String) : Bool := s != "" && s.data.all pyDigit

/-- Banking sub-record built by `extract_banking_info`. -/
structure BankingInfo where
  iban : String
  bic : String
  bank_name : String
  payment_address : String
  routing_number : String
  account_number : String
  sort_code : String
  payment_method : String
deriving DecidableEq, Repr

/-- Outcomes of the regex-extraction layer feeding
`extract_banking_info`, taken as unconstrained parameters: each field
is what the corresponding `extract_pattern` call(s) over the invoice
text would return (`none` for no match; for the pattern *lists* that
the code scans with a per-candidate predicate, the successive
successful extractions in pattern order). -/
structure BankingCandidates where
  iban_labeled : Option String
  iban_unlabeled : Option String
  bic_cand : Option String
  swift_cand : Option String
  routing_cand : Option String
  sort_cand : Option String
  us_account_cands : List String
  uk_account_cands : List String
  generic_account_cands : List String
  bank_name_cand : Option String

/-- IBAN candidate selection: labeled pattern first, unlabeled as
fallback, empty results treated as falsy. -/
def ibanCandidate (c : BankingCandidates) : Option String :=
  match truthyOpt c.iban_labeled with
  | some s => some s
  | none => truthyOpt c.iban_unlabeled

/-- Final value of the `iban` field of `extract_banking_info`: the
candidate with spaces removed, kept only when the checksum validates. -/
def ibanField (c : BankingCandidates) : String :=
  match ibanCandidate c with
  | some i =>
    let cl := String.mk (removeChar ' ' i.data)
    if validate_iban cl then cl else PARSING_FAILED
  | none => PARSING_FAILED

/-- BIC candidate selection: `BIC:` pattern first, `SWIFT:` fallback. -/
def bicCandidate (c : BankingCandidates) : Option String :=
  match truthyOpt c.bic_cand with
  | some s => some s
  | none => truthyOpt c.swift_cand

/-- Final value of the `bic` field of `extract_banking_info`. -/
def bicField (c : BankingCandidates) : String :=
  match bicCandidate c with
  | some b => if validate_bic b then b else PARSING_FAILED
  | none => PARSING_FAILED

/-- Final value of the `routing_number` field of `extract_banking_info`:
the first truthy ABA-pattern extraction, kept only when the checksum
validates. -/
def routingField (c : BankingCandidates) : String :=
  match truthyOpt c.routing_cand with
  | some r => if validate_aba_routing r then r else PARSING_FAILED
  | none => PARSING_FAILED

/-- Final value of the `sort_code` field of `extract_banking_info`: the
first truthy sort-code extraction, normalized, kept only when the
format validates. -/
def sortField (c : BankingCandidates) : String :=
  match truthyOpt c.sort_cand with
  | some sc => if validate_sort_code sc then normalize_sort_code sc else PARSING_FAILED
  | none => PARSING_FAILED

/-- Account-number extraction (`extract_account_number_smart`): US
patterns when the routing-number entry of the partially-built banking
dict is truthy (note: the sentinel string itself is truthy), UK
patterns when the sort-code entry is truthy, then generic patterns
whose match, cleaned of spaces and hyphens, has at least 6 characters. -/
def extract_account_number_smart (banking : BankingInfo) (c : BankingCandidates) :
    Option String :=
  let us :=
    if banking.routing_number ≠ "" then
      c.us_account_cands.find? (fun a => pyIsDigit a && 6 ≤ a.length && a.length ≤ 17)
    else none
  match us with
  | some a => some a
  | none =>
    let uk :=
      if banking.sort_code ≠ "" then
        c.uk_account_cands.find? (fun a => pyIsDigit a && a.length = 8)
      else none
    match uk with
    | some a => some a
    | none =>
      c.generic_account_cands.findSome? (fun a =>
        if a ≠ "" then
          let cl := removeChar '-' (removeChar ' ' a.data)
          if 6 ≤ cl.length then some (String.mk cl) else none
        else none)

/-- SEPA country codes (`PatternLibrary.SEPA_COUNTRIES`). -/
def SEPA_COUNTRIES : List String :=
  ["AT", "BE", "BG", "HR", "CY", "CZ", "DK", "EE", "FI", "FR",
   "DE", "GR", "HU", "IS", "IE", "IT", "LV", "LI", "LT", "LU",
   "MT", "MC", "NL", "NO", "PL", "PT", "RO", "SM", "SK", "SI",
   "ES", "SE", "CH", "GB", "VA", "AD"]

/-- Payment-method derivation (`parser_utils.detect_payment_method`):
IBAN present (truthy and non-sentinel) decides SEPA membership by the
first two characters; otherwise a routing number means ACH; otherwise
a sort code means BACS; otherwise the sentinel. -/
def detect_payment_method (banking : BankingInfo) : String :=
  if banking.iban ≠ "" ∧ banking.iban ≠ PARSING_FAILED then
    if SEPA_COUNTRIES.contains (banking.iban.take 2) then "SEPA" else "SEPA_INTERNATIONAL"
  else if banking.routing_number ≠ "" ∧ banking.routing_number ≠ PARSING_FAILED then "ACH"
  else if banking.sort_code ≠ "" ∧ banking.sort_code ≠ PARSING_FAILED then "BACS"
  else PARSING_FAILED

/-- Case-insensitive match of one literal word at the head of a list,
returning the rest on success. -/
def matchWordCI : List Char → List Char → Option (List Char)
  | [], rest => some rest
  | _ :: _, [] => none
  | a :: ws, b :: bs =>
    if asciiLower a = asciiLower b then matchWordCI ws bs else none

/-- Case-insensitive match of a sequence of words separated by one or
more whitespace characters (the `\s+` separators of the label
patterns), anchored at the head of the list. -/
def matchWordsCI : List (List Char) → List Char → Option (List Char)
  | [], rest => some rest
  | [w], l => matchWordCI w l
  | w :: ws, l =>
    match matchWordCI w l with
    | some rest =>
      match rest with
      | c :: cs => if pyWs c then matchWordsCI ws (cs.dropWhile pyWs) else none
      | [] => none
    | none => none

/-- Unanchored case-insensitive search for a whitespace-separated word
sequence (models `re.search` for patterns like `PAYMENT\s+ADDRESS`). -/
def searchWordsCI (words : List (List Char)) : List Char → Bool
  | [] => (matchWordsCI words []).isSome
  | c :: rest => (matchWordsCI words (c :: rest)).isSome || searchWordsCI words rest

/-- Payment-address block collection of `extract_banking_info`: take
following lines, stopping at an empty line, a `---` rule or a line
containing `Description`. -/
def collectPayment : List String → List String
  | [] => []
  | l :: rest =>
    let ls := String.mk (stripWs l.data)
    if ls = "" ∨ "---".data.isPrefixOf ls.data ∨ containsSub "Description".data ls.data then
      []
    else ls :: collectPayment rest

/-- Final value of the `payment_address` field of
`extract_banking_info`: up to four lines following the first line that
matches `PAYMENT\s+ADDRESS` (case-insensitively), joined with commas. -/
def paymentAddressField (lines : List String) : String :=
  match lines.findIdx? (fun l => searchWordsCI ["payment".data, "address".data] l.data) with
  | some i =>
    let payment_lines := collectPayment ((lines.drop (i + 1)).take 4)
    if payment_lines = [] then PARSING_FAILED
    else String.intercalate ", " payment_lines
  | none => PARSING_FAILED

/-- Banking-information extractor (`parser_utils.extract_banking_info`),
with the regex layer abstracted into `BankingCandidates`.  The record
is assembled in source order: IBAN / BIC / routing / sort code first
(each validation-gated), then the smart account-number extraction
against the partially-built record, bank name, payment address, and
finally the derived payment method. -/
def extract_banking_info (c : BankingCandidates) (lines : List String) : BankingInfo :=
  let iban := ibanField c
  let bic := bicField c
  let routing := routingField c
  let sortc := sortField c
  let partialBanking : BankingInfo :=
    ⟨iban, bic, PARSING_FAILED, PARSING_FAILED, routing, PARSING_FAILED, sortc,
      PARSING_FAILED⟩
  let account :=
    match extract_account_number_smart partialBanking c with
    | some a => a
    | none => PARSING_FAILED
  let bank :=
    match c.bank_name_cand with
    | some s => s
    | none => PARSING_FAILED
  let payAddr := paymentAddressField lines
  let b : BankingInfo := ⟨iban, bic, bank, payAddr, routing, account, sortc, PARSING_FAILED⟩
  let pm := detect_payment_method b
  if pm ≠ PARSING_FAILED then { b with payment_method := pm } else b

/-- Payment-method rule as the claim states it, in terms of which
banking identifiers are populated (non-sentinel). -/
def claimPaymentMethod (iban routing sortc : String) : String :=
  if iban ≠ PARSING_FAILED then
    if SEPA_COUNTRIES.contains (iban.take 2) then "SEPA" else "SEPA_INTERNATIONAL"
  else if routing ≠ PARSING_FAILED then "ACH"
  else if sortc ≠ PARSING_FAILED then "BACS"
  else PARSING_FAILED

/-- Match of one label pattern of the form `^\s*W1\s+...\s+Wk:\s*(.*)`
(case-insensitive) against a line, as `re.search` evaluates it: skip
leading whitespace, then the words separated by whitespace, the colon
being part of the last word; the trailing `\s*(.*)` always matches. -/
def labelMatches (words : List String) (line : String) : Bool :=
  (matchWordsCI (words.map String.data) (line.data.dropWhile pyWs)).isSome

/-- English sender labels (`PatternLibrary.SENDER_LABELS['en']`), each
given as its literal words. -/
def SENDER_LABELS_EN : List (List String) :=
  [["From:"], ["Invoice", "from:"], ["Sender:"], ["Bill", "from:"],
   ["Billed", "by:"], ["Issued", "by:"], ["Provider:"], ["Vendor:"],
   ["Supplier:"], ["Contractor:"], ["Service", "Provider:"], ["Seller:"]]

/-- German sender labels (`PatternLibrary.SENDER_LABELS['de']`). -/
def SENDER_LABELS_DE : List (List String) :=
  [["Absender:"], ["Von:"], ["Rechnungssteller:"], ["Lieferant:"],
   ["Anbieter:"], ["Verkäufer:"]]

/-- English recipient labels (`PatternLibrary.RECIPIENT_LABELS['en']`). -/
def RECIPIENT_LABELS_EN : List (List String) :=
  [["To:"], ["Bill", "to:"], ["Recipient:"], ["Invoice", "to:"],
   ["Customer:"], ["Billed", "to:"], ["Client:"], ["Purchaser:"],
   ["Buyer:"], ["Attention:"], ["Attn:"], ["For:"]]

/-- German recipient labels (`PatternLibrary.RECIPIENT_LABELS['de']`). -/
def RECIPIENT_LABELS_DE : List (List String) :=
  [["Rechnungsempfänger:"], ["An:"], ["Empfänger:"], ["Kunde:"],
   ["Käufer:"], ["Auftraggeber:"]]

/-- All sender labels (`PatternLibrary.get_all_sender_labels`). -/
def get_all_sender_labels : List (List String) := SENDER_LABELS_EN ++ SENDER_LABELS_DE

/-- All recipient labels (`PatternLibrary.get_all_recipient_labels`). -/
def get_all_recipient_labels : List (List String) :=
  RECIPIENT_LABELS_EN ++ RECIPIENT_LABELS_DE

/-- Existence form of `PatternLibrary.find_label_in_lines`: the
returned index is nonnegative exactly when some line matches some
pattern of the list. -/
def hasLabelLine (lines : List String) (labels : List (List String)) : Bool :=
  lines.any (fun line => labels.any (fun lab => labelMatches lab line))

/-- Trigger predicate of the single-column-label strategy
(`SingleColumnLabelStrategy.can_handle`): some line carries a sender
or a recipient label. -/
def singleColumnCanHandle (_text : String) (lines : List String) : Bool :=
  hasLabelLine lines get_all_sender_labels || hasLabelLine lines get_all_recipient_labels

/-- Trigger predicate of the two-column strategy
(`TwoColumnStrategy.can_handle`).  The Python body first requires a
line matching `bill\s+to` (case-insensitively) and then runs extra
indicator checks, but every path after the anchor test returns `True`,
so the predicate reduces to the anchor test. -/
def twoColumnCanHandle (_text : String) (lines : List String) : Bool :=
  lines.any (fun line => searchWordsCI ["bill".data, "to".data] line.data)

/-- Trigger predicate of the company-specific strategy
(`CompanySpecificStrategy.can_handle`): the `Deutsche Bahn` marker, or
at least two of four German corporate indicators. -/
def companySpecificCanHandle (text : String) (_lines : List String) : Bool :=
  containsSub "Deutsche Bahn".data text.data ||
    2 ≤ ((if containsSub "GmbH".data text.data then 1 else 0)
      + (if containsSub "AG".data text.data then 1 else 0)
      + (if containsSub "straße".data text.data then 1 else 0)
      + (if containsSub "·".data text.data then 1 else 0))

/-- Trigger predicate of the generic pattern-fallback strategy
(`PatternFallbackStrategy.can_handle`): true exactly when none of ten
case-sensitive marker substrings occurs in the text. -/
def fallbackCanHandle (text : String) (_lines : List String) : Bool :=
  let has_column_structure :=
    containsSub "From:".data text.data || containsSub "To:".data text.data
      || containsSub "Bill from:".data text.data
      || containsSub "Bill to:".data text.data
  let has_label_structure :=
    containsSub "Sender:".data text.data || containsSub "Recipient:".data text.data
      || containsSub "Absender:".data text.data
      || containsSub "Empfänger:".data text.data
  let has_company_specific :=
    containsSub "Deutsche Bahn".data text.data
      || containsSub "DB Vertrieb".data text.data
  !(has_column_structure || has_label_structure || has_company_specific)

/-- The ten marker substrings that `PatternFallbackStrategy.can_handle`
tests for. -/
def fallbackMarkers : List String :=
  ["From:", "To:", "Bill from:", "Bill to:", "Sender:", "Recipient:",
   "Absender:", "Empfänger:", "Deutsche Bahn", "DB Vertrieb"]

/-- A parsing strategy as the orchestrator consumes it: a trigger
predicate and a parse function over the text and its lines. -/
structure StrategyM where
  canHandle : String → List String → Bool
  parse : String → List String → InvoiceResult

/-- Strategy-trial loop of `pdf_parser.parse_invoice` (lines 197-218):
skip strategies whose trigger is false, keep a candidate only when its
confidence strictly exceeds the best seen, and stop at the first
confidence of at least 900 per-mille (the literal `0.9`). -/
def strategyLoop (text : String) (lines : List String) :
    List StrategyM → Option InvoiceResult → Nat → Option InvoiceResult × Nat
  | [], best, bestC => (best, bestC)
  | s :: rest, best, bestC =>
    if s.canHandle text lines then
      let r := s.parse text lines
      let c := calculate_confidence r
      let best' := if bestC < c then some r else best
      let bestC' := if bestC < c then c else bestC
      if 900 ≤ c then (best', bestC') else strategyLoop text lines rest best' bestC'
    else strategyLoop text lines rest best bestC

/-- Per-field rule of `pdf_parser.merge_results`: ML replaces a failed
regex value; when `prefer_regex` is off and the ML confidence is
strictly higher, ML also replaces a present regex value. -/
def mergeField (preferRegex : Bool) (mlHigher : Bool) (rv mv : String) : String :=
  if rv = PARSING_FAILED ∧ mv ≠ PARSING_FAILED then mv
  else if ¬ preferRegex ∧ rv ≠ PARSING_FAILED ∧ mv ≠ PARSING_FAILED ∧ mlHigher then mv
  else rv

/-- Per-field merge rule as the claim words it: the merged value equals
the rule-based value, unless the rule-based value is the sentinel and
the ML value is not, with the single exception that a non-preferred
regex with strictly lower confidence loses contested fields. -/
def claimMergeField (preferRegex : Bool) (mlHigher : Bool) (rv mv : String) : String :=
  if ¬ preferRegex ∧ mlHigher ∧ rv ≠ PARSING_FAILED ∧ mv ≠ PARSING_FAILED then mv
  else if rv = PARSING_FAILED ∧ mv ≠ PARSING_FAILED then mv
  else rv

/-- Ensemble merge (`pdf_parser.merge_results`): below the minimum ML
confidence the regex result is returned unmodified; otherwise every
field is merged with `mergeField`.  Confidences in per-mille. -/
def merge_results (preferRegex : Bool) (mlMinConfidence : Nat)
    (regexResult mlResult : InvoiceResult) (regexConfidence mlConfidence : Nat) :
    InvoiceResult :=
  if mlConfidence < mlMinConfidence then regexResult
  else
    let mf := mergeField preferRegex (regexConfidence < mlConfidence)
    { sender := mf regexResult.sender mlResult.sender
      recipient := mf regexResult.recipient mlResult.recipient
      amount := mf regexResult.amount mlResult.amount
      currency := mf regexResult.currency mlResult.currency
      sender_address := mf regexResult.sender_address mlResult.sender_address
      recipient_address := mf regexResult.recipient_address mlResult.recipient_address
      sender_email := mf regexResult.sender_email mlResult.sender_email
      recipient_email := mf regexResult.recipient_email mlResult.recipient_email
      invoice_number := mf regexResult.invoice_number mlResult.invoice_number
      invoice_date := mf regexResult.invoice_date mlResult.invoice_date
      due_date := mf regexResult.due_date mlResult.due_date
      tax_amount := mf regexResult.tax_amount mlResult.tax_amount
      tax_rate := mf regexResult.tax_rate mlResult.tax_rate
      tax_id := mf regexResult.tax_id mlResult.tax_id
      payment_terms := mf regexResult.payment_terms mlResult.payment_terms
      vehicle_id := mf regexResult.vehicle_id mlResult.vehicle_id
      original_recipient := mf regexResult.original_recipient mlResult.original_recipient
      vehicle_match_score := mf regexResult.vehicle_match_score mlResult.vehicle_match_score
      bank_name := mf regexResult.bank_name mlResult.bank_name
      iban := mf regexResult.iban mlResult.iban
      bic := mf regexResult.bic mlResult.bic
      payment_address := mf regexResult.payment_address mlResult.payment_address
      routing_number := mf regexResult.routing_number mlResult.routing_number
      account_number := mf regexResult.account_number mlResult.account_number
      sort_code := mf regexResult.sort_code mlResult.sort_code
      payment_method := mf regexResult.payment_method mlResult.payment_method }

/-- Collapse of space runs (`re.sub(' +', ' ', text)` in
`parser_utils.normalize_text`). -/
def collapseSpaces (l : List Char) : List Char :=
  match l with
  | [] => []
  | c :: rest =>
    if c = ' ' then ' ' :: collapseSpaces (rest.dropWhile (fun x => x = ' '))
    else c :: collapseSpaces rest
termination_by l.length
decreasing_by
  · exact Nat.lt_succ_of_le (List.Sublist.length_le (List.dropWhile_sublist _))
  · simp

/-- Text normalization (`parser_utils.normalize_text`): null bytes
become spaces, space runs collapse, the text splits into lines and
each line is stripped. -/
def normalize_text (text : String) : List String :=
  let t := text.data.map (fun c => if c = Char.ofNat 0 then ' ' else c)
  (splitOnChar '\n' (collapseSpaces t)).map (fun l => String.mk (stripWs l))

/-- Failure conditions converted to the default record at the
`parse_invoice` boundary: missing file, page-less document, no
extractable text, corrupted source, and the catch-all for unexpected
errors. -/
inductive PdfError where
  | fileNotFound
  | noPages
  | noText
  | corrupted
  | unexpected
deriving DecidableEq, Repr

/-- Orchestrator (`pdf_parser.parse_invoice`).  The text-extraction
phase is modelled by an `Except` input (every raised-and-caught error
keeps the pre-initialized default result); the optional ML collaborator
by an optional record/confidence pair (absence and internal failure
both fall back to the regex-only result); both configuration flags of
the ensemble as parameters. -/
def parse_invoice (extraction : Except PdfError String)
    (strategies : List StrategyM) (ml : Option (InvoiceResult × Nat))
    (mlMinConfidence : Nat) (preferRegex : Bool) : InvoiceResult :=
  match extraction with
  | .error _ => create_default_result
  | .ok text =>
    let lines := normalize_text text
    match strategyLoop text lines strategies none 0 with
    | (some best, bestC) =>
      match ml with
      | some (mlR, mlC) =>
        merge_results preferRegex mlMinConfidence best mlR bestC mlC
      | none => best
    | (none, _) => create_default_result

/-- Record with a fully validated US banking block (routing number
`121000248` passes the ABA checksum) and everything else unresolved. -/
def usBankingResult : InvoiceResult :=
  { create_default_result with
      routing_number := "121000248"
      account_number := "12345678"
      payment_method := "ACH" }

/-- The US banking record after additionally resolving the IBAN field
to a checksum-valid IBAN, all other fields unchanged. -/
def usBankingWithIban : InvoiceResult :=
  { usBankingResult with iban := "DE89370400440532013000" }

/-- Record with a fully validated UK banking block and everything else
unresolved. -/
def ukBankingResult : InvoiceResult :=
  { create_default_result with
      sort_code := "12-34-56"
      account_number := "12345678"
      payment_method := "BACS" }

/-- The UK banking record after additionally resolving the routing
number to a checksum-valid ABA number, all other fields unchanged. -/
def ukBankingWithRouting : InvoiceResult :=
  { ukBankingResult with routing_number := "121000248" }

/-- A fully populated result whose confidence reaches the early-exit
threshold. -/
def highConfResult : InvoiceResult :=
  { create_default_result with
      sender := "billing@acme.com"
      recipient := "john@client.com"
      amount := "100.00"
      currency := "EUR"
      sender_address := "1 Main Street"
      sender_email := "billing@acme.com"
      recipient_email := "john@client.com"
      invoice_number := "INV-42"
      invoice_date := "2024-01-01"
      due_date := "2024-02-01"
      payment_terms := "Net 30"
      tax_amount := "19.00"
      tax_rate := "19%"
      tax_id := "DE123456789"
      iban := "DE89370400440532013000"
      bic := "DEUTDEFF"
      payment_method := "SEPA" }

/-- Strategy whose trigger always fires and whose parse reaches the
early-exit confidence. -/
def highStrategy : StrategyM := ⟨fun _ _ => true, fun _ _ => highConfResult⟩

/-- Strategy whose trigger never fires. -/
def skipStrategy : StrategyM := ⟨fun _ _ => false, fun _ _ => create_default_result⟩

/-- Strategy whose trigger fires but whose parse resolves nothing. -/
def lowStrategy : StrategyM := ⟨fun _ _ => true, fun _ _ => create_default_result⟩

/-- Strategy whose trigger fires and whose parse reaches a
mid-range confidence below the early-exit threshold. -/
def midStrategy : StrategyM := ⟨fun _ _ => true, fun _ _ => usBankingResult⟩

/-! Helper lemmas. -/

/-- The sentinel is not `present`. -/
theorem present_pf : present PARSING_FAILED = false := by decide

/-- A string accepted by `validate_iban` is non-empty. -/
theorem validate_iban_ne_empty {s : String} (h : validate_iban s = true) : s ≠ "" := by
  intro he
  subst he
  simp [validate_iban] at h

/-- A string accepted by `validate_aba_routing` is non-empty. -/
theorem validate_aba_ne_empty {s : String} (h : validate_aba_routing s = true) :
    s ≠ "" := by
  intro he
  subst he
  simp [validate_aba_routing] at h

/-- Strings are equal iff their character lists are equal. -/
theorem string_eq_iff_data {s t : String} : s = t ↔ s.data = t.data := by
  constructor
  · intro h; rw [h]
  · intro h; cases s; cases t; simp only at h; rw [h]

/-- A normalized sort code is never the empty string. -/
theorem normalize_sort_code_ne_empty (sc : String) : normalize_sort_code sc ≠ "" := by
  intro h
  rw [string_eq_iff_data] at h
  simp [normalize_sort_code, String.data_append] at h

/-- A digit character is not a hyphen. -/
theorem pyDigit_ne_hyphen {c : Char} (h : pyDigit c = true) : c ≠ '-' := by
  intro he; subst he; exact absurd h (by decide)

/-- A digit character is not a space. -/
theorem pyDigit_ne_space {c : Char} (h : pyDigit c = true) : c ≠ ' ' := by
  intro he; subst he; exact absurd h (by decide)

/-- Explicit form of a six-element list. -/
theorem length_six_cases {α : Type} {l : List α} (h : l.length = 6) :
    ∃ a b c d e f : α, l = [a, b, c, d, e, f] := by
  match l, h with
  | [a, b, c, d, e, f], _ => exact ⟨a, b, c, d, e, f, rfl⟩

/-- Normalizing a valid sort code yields a string that still validates. -/
theorem validate_normalize_sort_code {sc : String} (h : validate_sort_code sc = true) :
    validate_sort_code (normalize_sort_code sc) = true := by
  unfold validate_sort_code at h ⊢
  unfold normalize_sort_code
  rw [Bool.and_eq_true] at h
  obtain ⟨h6, hdig⟩ := h
  rw [decide_eq_true_iff] at h6
  obtain ⟨a, b, c, d, e, f, hl⟩ := length_six_cases h6
  rw [hl] at hdig ⊢
  simp only [List.all_cons, List.all_nil, Bool.and_eq_true, Bool.and_true] at hdig
  obtain ⟨ha, hb, hc, hd, he, hf⟩ := hdig
  simp only [List.take, List.drop, String.data_append]
  simp [removeChar, List.filter, pyDigit_ne_hyphen, pyDigit_ne_space,
    ha, hb, hc, hd, he, hf]

/-- Case analysis for the final IBAN field: sentinel or validated. -/
theorem ibanField_cases (c : BankingCandidates) :
    ibanField c = PARSING_FAILED ∨ validate_iban (ibanField c) = true := by
  unfold ibanField
  cases ibanCandidate c with
  | none => exact Or.inl rfl
  | some i =>
    by_cases hv : validate_iban (String.mk (removeChar ' ' i.data)) = true
    · right; simp only [hv, if_true]
    · left; simp [Bool.eq_false_iff.mpr hv]

/-- Case analysis for the final BIC field: sentinel or validated. -/
theorem bicField_cases (c : BankingCandidates) :
    bicField c = PARSING_FAILED ∨ validate_bic (bicField c) = true := by
  unfold bicField
  cases bicCandidate c with
  | none => exact Or.inl rfl
  | some b =>
    by_cases hv : validate_bic b = true
    · right; simp only [hv, if_true]
    · left; simp [Bool.eq_false_iff.mpr hv]

/-- Case analysis for the final routing-number field. -/
theorem routingField_cases (c : BankingCandidates) :
    routingField c = PARSING_FAILED ∨ validate_aba_routing (routingField c) = true := by
  unfold routingField
  cases truthyOpt c.routing_cand with
  | none => exact Or.inl rfl
  | some r =>
    by_cases hv : validate_aba_routing r = true
    · right; simp only [hv, if_true]
    · left; simp [Bool.eq_false_iff.mpr hv]

/-- Case analysis for the final sort-code field: sentinel or a
normalization of a validated candidate, which itself validates. -/
theorem sortField_cases (c : BankingCandidates) :
    sortField c = PARSING_FAILED ∨ validate_sort_code (sortField c) = true := by
  unfold sortField
  cases truthyOpt c.sort_cand with
  | none => exact Or.inl rfl
  | some sc =>
    by_cases hv : validate_sort_code sc = true
    · right
      simpa [hv] using validate_normalize_sort_code hv
    · left; simp [Bool.eq_false_iff.mpr hv]

/-- The iban projection of the banking extractor. -/
theorem extract_banking_info_iban (c : BankingCandidates) (lines : List String) :
    (extract_banking_info c lines).iban = ibanField c := by
  simp only [extract_banking_info]
  split <;> rfl

/-- The bic projection of the banking extractor. -/
theorem extract_banking_info_bic (c : BankingCandidates) (lines : List String) :
    (extract_banking_info c lines).bic = bicField c := by
  simp only [extract_banking_info]
  split <;> rfl

/-- The routing-number projection of the banking extractor. -/
theorem extract_banking_info_routing (c : BankingCandidates) (lines : List String) :
    (extract_banking_info c lines).routing_number = routingField c := by
  simp only [extract_banking_info]
  split <;> rfl

/-- The sort-code projection of the banking extractor. -/
theorem extract_banking_info_sort (c : BankingCandidates) (lines : List String) :
    (extract_banking_info c lines).sort_code = sortField c := by
  simp only [extract_banking_info]
  split <;> rfl

/-- C2.  For every behaviour of the regex-candidate layer and every
line list, each banking identifier returned by `extract_banking_info`
is either the sentinel or has passed its type-specific validation: a
non-sentinel iban satisfies the mod-97 `validate_iban`, a non-sentinel
bic satisfies `validate_bic`, a non-sentinel routing number satisfies
`validate_aba_routing`, and a non-sentinel sort code satisfies
`validate_sort_code`.  In particular a structurally matching IBAN
candidate with a failing checksum leaves the iban field at the
sentinel. -/
theorem C2_banking_fields_validated (c : BankingCandidates) (lines : List String) :
    ((extract_banking_info c lines).iban = PARSING_FAILED
      ∨ validate_iban (extract_banking_info c lines).iban = true)
    ∧ ((extract_banking_info c lines).bic = PARSING_FAILED
      ∨ validate_bic (extract_banking_info c lines).bic = true)
    ∧ ((extract_banking_info c lines).routing_number = PARSING_FAILED
      ∨ validate_aba_routing (extract_banking_info c lines).routing_number = true)
    ∧ ((extract_banking_info c lines).sort_code = PARSING_FAILED
      ∨ validate_sort_code (extract_banking_info c lines).sort_code = true) := by
  rw [extract_banking_info_iban, extract_banking_info_bic,
    extract_banking_info_routing, extract_banking_info_sort]
  exact ⟨ibanField_cases c, bicField_cases c, routingField_cases c, sortField_cases c⟩

/-- A non-sentinel final IBAN field is non-empty (it validated). -/
theorem ibanField_ne_empty {c : BankingCandidates} (h : ibanField c ≠ PARSING_FAILED) :
    ibanField c ≠ "" := by
  rcases ibanField_cases c with hc | hc
  · exact absurd hc h
  · exact validate_iban_ne_empty hc

/-- A non-sentinel final routing-number field is non-empty. -/
theorem routingField_ne_empty {c : BankingCandidates}
    (h : routingField c ≠ PARSING_FAILED) : routingField c ≠ "" := by
  rcases routingField_cases c with hc | hc
  · exact absurd hc h
  · exact validate_aba_ne_empty hc

/-- A non-sentinel final sort-code field is non-empty. -/
theorem sortField_ne_empty {c : BankingCandidates}
    (h : sortField c ≠ PARSING_FAILED) : sortField c ≠ "" := by
  rcases sortField_cases c with hc | hc
  · exact absurd hc h
  · intro he
    rw [he] at hc
    exact absurd hc (by decide)

/-- The payment-method derivation agrees with the claim-side rule on
any record whose non-sentinel identifier fields are non-empty. -/
theorem detect_eq_claim (b : BankingInfo)
    (hi : b.iban ≠ PARSING_FAILED → b.iban ≠ "")
    (hr : b.routing_number ≠ PARSING_FAILED → b.routing_number ≠ "")
    (hs : b.sort_code ≠ PARSING_FAILED → b.sort_code ≠ "") :
    detect_payment_method b = claimPaymentMethod b.iban b.routing_number b.sort_code := by
  have hpf : PARSING_FAILED ≠ "" := by decide
  unfold detect_payment_method claimPaymentMethod
  by_cases h1 : b.iban = PARSING_FAILED
  · simp only [h1, hpf, ne_eq, not_true_eq_false, and_false, if_false,
      not_false_eq_true, true_and, if_true]
    by_cases h2 : b.routing_number = PARSING_FAILED
    · simp only [h2, hpf, ne_eq, not_true_eq_false, and_false, if_false,
        not_false_eq_true, true_and, if_true]
      by_cases h3 : b.sort_code = PARSING_FAILED
      · simp [h3, hpf]
      · simp [h3, hs h3]
    · simp [h2, hr h2]
  · simp [h1, hi h1]

/-- C10.  In the banking extractor's result, `payment_method` equals
the strict priority derivation over which banking identifiers are
populated (IBAN -> SEPA / SEPA_INTERNATIONAL by the fixed country set,
else routing number -> ACH, else sort code -> BACS, else sentinel); in
particular it is never non-sentinel without a populated banking
identifier. -/
theorem C10_payment_method (c : BankingCandidates) (lines : List String) :
    (extract_banking_info c lines).payment_method
      = claimPaymentMethod (extract_banking_info c lines).iban
          (extract_banking_info c lines).routing_number
          (extract_banking_info c lines).sort_code := by
  rw [extract_banking_info_iban, extract_banking_info_routing, extract_banking_info_sort]
  simp only [extract_banking_info]
  split
  next hpm =>
    exact detect_eq_claim _ (fun h => ibanField_ne_empty h)
      (fun h => routingField_ne_empty h) (fun h => sortField_ne_empty h)
  next hpm =>
    rw [not_not] at hpm
    refine ((detect_eq_claim _ ?_ ?_ ?_).symm.trans hpm).symm
    · exact fun h => ibanField_ne_empty h
    · exact fun h => routingField_ne_empty h
    · exact fun h => sortField_ne_empty h

/-- Digit characters have code points between 48 and 57. -/
theorem pyDigit_bounds {c : Char} (h : pyDigit c = true) :
    48 ≤ c.toNat ∧ c.toNat ≤ 57 := by
  simpa [pyDigit, Bool.and_eq_true, decide_eq_true_iff] using h

/-- Explicit form of a nine-element list. -/
theorem length_nine_cases {α : Type} {l : List α} (h : l.length = 9) :
    ∃ a b c d e f g h2 i : α, l = [a, b, c, d, e, f, g, h2, i] := by
  match l, h with
  | [a, b, c, d, e, f, g, h2, i], _ => exact ⟨a, b, c, d, e, f, g, h2, i, rfl⟩

/-- Guarded-checksum form used by the routing validator. -/
theorem ite_not_false_iff (P : Prop) [Decidable P] (b : Bool) :
    (if ¬P then false else b) = true ↔ b = true ∧ decide P = true := by
  by_cases h : P <;> simp [h]

/-- C6.  For every nine-digit string, `validate_aba_routing` accepts
iff the weighted checksum `3*(d1+d4+d7) + 7*(d2+d5+d8) + (d3+d6+d9)`
is divisible by ten and the first two digits fall in a valid district
range; every all-same-digit nine-digit string is rejected even when
its checksum coincidentally passes; and every input that is not
exactly nine digits -- wrong length, or length nine with a non-digit
character -- is rejected. -/
theorem C6_validate_aba_routing :
    (∀ s : String, s.length = 9 → s.data.all pyDigit = true →
      (validate_aba_routing s = true
        ↔ abaChecksumOK s.data = true ∧ abaDistrictOK s.data = true))
    ∧ (∀ c : Char, pyDigit c = true →
      validate_aba_routing (String.mk (List.replicate 9 c)) = false)
    ∧ (∀ s : String, s.length ≠ 9 ∨ s.data.all pyDigit = false →
      validate_aba_routing s = false) := by
  refine ⟨?_, ?_, ?_⟩
  · intro s h9 hd
    by_cases h0 : s = "000000000" ∨ s = "111111111" ∨ s = "999999999"
    · rcases h0 with h | h | h <;> subst h <;> decide
    · have hne : s ≠ "" := by
        intro he; subst he; simp at h9
      have hdata : s.data.length = 9 := h9
      obtain ⟨d1, d2, d3, d4, d5, d6, d7, d8, d9, hds⟩ := length_nine_cases hdata
      unfold validate_aba_routing
      rw [if_neg (by simp [hne, h9, hd]), if_neg h0]
      rw [hds]
      simp only [abaChecksumOK, abaDistrictOK]
      exact ite_not_false_iff _ _
  · intro c hc
    obtain ⟨hlo, hhi⟩ := pyDigit_bounds hc
    unfold validate_aba_routing
    rw [if_neg (by simp [string_eq_iff_data, List.replicate, hc])]
    by_cases h0 : String.mk (List.replicate 9 c) = "000000000"
        ∨ String.mk (List.replicate 9 c) = "111111111"
        ∨ String.mk (List.replicate 9 c) = "999999999"
    · rw [if_pos h0]
    · rw [if_neg h0]
      show (match (String.mk (List.replicate 9 c)).data with
        | [d1, d2, d3, d4, d5, d6, d7, d8, d9] =>
          let ft := digitVal d1 * 10 + digitVal d2
          if ¬ ((1 ≤ ft ∧ ft ≤ 12) ∨ (21 ≤ ft ∧ ft ≤ 32) ∨ (61 ≤ ft ∧ ft ≤ 72) ∨ ft = 80) then
            false
          else
            (3 * (digitVal d1 + digitVal d4 + digitVal d7)
              + 7 * (digitVal d2 + digitVal d5 + digitVal d8)
              + (digitVal d3 + digitVal d6 + digitVal d9)) % 10 == 0
        | _ => false) = false
      rw [show (String.mk (List.replicate 9 c)).data = [c, c, c, c, c, c, c, c, c] from rfl]
      simp only []
      by_cases hP : (1 ≤ digitVal c * 10 + digitVal c ∧ digitVal c * 10 + digitVal c ≤ 12)
          ∨ (21 ≤ digitVal c * 10 + digitVal c ∧ digitVal c * 10 + digitVal c ≤ 32)
          ∨ (61 ≤ digitVal c * 10 + digitVal c ∧ digitVal c * 10 + digitVal c ≤ 72)
          ∨ digitVal c * 10 + digitVal c = 80
      · simp only [hP, not_true_eq_false, if_false]
        rw [beq_eq_false_iff_ne]
        unfold digitVal at hP ⊢
        omega
      · simp [hP]
  · intro s h
    rcases h with h | h
    · simp [validate_aba_routing, h]
    · simp [validate_aba_routing, h]

/-- Witness for C6: the real routing number 121000248 is accepted via
the iff, the all-ones string is rejected, an eight-digit string is
rejected, and a nine-character string containing a letter is
rejected. -/
theorem C6_witness :
    validate_aba_routing "121000248" = true
    ∧ validate_aba_routing (String.mk (List.replicate 9 '1')) = false
    ∧ validate_aba_routing "12345678" = false
    ∧ validate_aba_routing "12345678A" = false := by
  refine ⟨?_, ?_, ?_, ?_⟩
  · exact (C6_validate_aba_routing.1 "121000248" (by decide) (by decide)).mpr
      ⟨by decide, by decide⟩
  · exact C6_validate_aba_routing.2.1 '1' (by decide)
  · exact C6_validate_aba_routing.2.2 "12345678" (Or.inl (by decide))
  · exact C6_validate_aba_routing.2.2 "12345678A" (Or.inr (by decide))

/-- The source's per-field merge rule coincides with the claim-side
formulation of the precedence. -/
theorem mergeField_eq_claim (pr gt : Bool) (rv mv : String) :
    mergeField pr gt rv mv = claimMergeField pr gt rv mv := by
  unfold mergeField claimMergeField
  by_cases h1 : rv = PARSING_FAILED <;> by_cases h2 : mv = PARSING_FAILED <;>
    by_cases hp : pr <;> by_cases hg : gt <;> simp [h1, h2, hp, hg]

/-- C8.  `merge_results` returns the rule-based result unmodified when
the ML confidence is below the minimum threshold; otherwise every
field follows the claim's precedence: the rule-based value, unless it
is the sentinel and the ML value is not, with the single exception
that when `prefer_regex` is off and the ML confidence strictly exceeds
the rule-based confidence the ML value wins contested non-sentinel
fields. -/
theorem C8_merge_results (pr : Bool) (mlMin : Nat) (rR mR : InvoiceResult)
    (rc mc : Nat) :
    (mc < mlMin → merge_results pr mlMin rR mR rc mc = rR)
    ∧ (mlMin ≤ mc →
      merge_results pr mlMin rR mR rc mc =
        { sender := claimMergeField pr (rc < mc) rR.sender mR.sender
          recipient := claimMergeField pr (rc < mc) rR.recipient mR.recipient
          amount := claimMergeField pr (rc < mc) rR.amount mR.amount
          currency := claimMergeField pr (rc < mc) rR.currency mR.currency
          sender_address := claimMergeField pr (rc < mc) rR.sender_address mR.sender_address
          recipient_address :=
            claimMergeField pr (rc < mc) rR.recipient_address mR.recipient_address
          sender_email := claimMergeField pr (rc < mc) rR.sender_email mR.sender_email
          recipient_email :=
            claimMergeField pr (rc < mc) rR.recipient_email mR.recipient_email
          invoice_number :=
            claimMergeField pr (rc < mc) rR.invoice_number mR.invoice_number
          invoice_date := claimMergeField pr (rc < mc) rR.invoice_date mR.invoice_date
          due_date := claimMergeField pr (rc < mc) rR.due_date mR.due_date
          tax_amount := claimMergeField pr (rc < mc) rR.tax_amount mR.tax_amount
          tax_rate := claimMergeField pr (rc < mc) rR.tax_rate mR.tax_rate
          tax_id := claimMergeField pr (rc < mc) rR.tax_id mR.tax_id
          payment_terms := claimMergeField pr (rc < mc) rR.payment_terms mR.payment_terms
          vehicle_id := claimMergeField pr (rc < mc) rR.vehicle_id mR.vehicle_id
          original_recipient :=
            claimMergeField pr (rc < mc) rR.original_recipient mR.original_recipient
          vehicle_match_score :=
            claimMergeField pr (rc < mc) rR.vehicle_match_score mR.vehicle_match_score
          bank_name := claimMergeField pr (rc < mc) rR.bank_name mR.bank_name
          iban := claimMergeField pr (rc < mc) rR.iban mR.iban
          bic := claimMergeField pr (rc < mc) rR.bic mR.bic
          payment_address :=
            claimMergeField pr (rc < mc) rR.payment_address mR.payment_address
          routing_number :=
            claimMergeField pr (rc < mc) rR.routing_number mR.routing_number
          account_number :=
            claimMergeField pr (rc < mc) rR.account_number mR.account_number
          sort_code := claimMergeField pr (rc < mc) rR.sort_code mR.sort_code
          payment_method :=
            claimMergeField pr (rc < mc) rR.payment_method mR.payment_method }) := by
  constructor
  · intro h
    unfold merge_results
    rw [if_pos h]
  · intro h
    unfold merge_results
    rw [if_neg (by omega)]
    simp only [mergeField_eq_claim]

/-- Witness for C8 at concrete inputs: a low-confidence ML result is
discarded wholesale, and above the threshold a failed regex field
takes the ML value. -/
theorem C8_witness :
    merge_results true 500 usBankingResult highConfResult 300 200 = usBankingResult
    ∧ (merge_results false 400 usBankingResult highConfResult 300 600).sender
      = "billing@acme.com" := by
  constructor
  · exact (C8_merge_results true 500 usBankingResult highConfResult 300 200).1
      (by omega)
  · rw [(C8_merge_results false 400 usBankingResult highConfResult 300 600).2 (by omega)]
    decide

/-- C7.  The orchestrator's strategy loop, for any trial order: a
strategy whose trigger is false is skipped without affecting the
state; an eligible strategy whose confidence does not strictly exceed
the best seen leaves the best candidate unchanged; an eligible
strategy whose confidence strictly exceeds the best seen replaces it;
and the loop stops at the first confidence of at least 900 per-mille
(0.9), ignoring all remaining strategies. -/
theorem C7_strategy_loop (text : String) (lines : List String) (s : StrategyM)
    (rest : List StrategyM) (best : Option InvoiceResult) (bestC : Nat) :
    (s.canHandle text lines = false →
      strategyLoop text lines (s :: rest) best bestC
        = strategyLoop text lines rest best bestC)
    ∧ (s.canHandle text lines = true →
      calculate_confidence (s.parse text lines) ≤ bestC →
      calculate_confidence (s.parse text lines) < 900 →
      strategyLoop text lines (s :: rest) best bestC
        = strategyLoop text lines rest best bestC)
    ∧ (s.canHandle text lines = true →
      bestC < calculate_confidence (s.parse text lines) →
      calculate_confidence (s.parse text lines) < 900 →
      strategyLoop text lines (s :: rest) best bestC
        = strategyLoop text lines rest (some (s.parse text lines))
            (calculate_confidence (s.parse text lines)))
    ∧ (s.canHandle text lines = true →
      900 ≤ calculate_confidence (s.parse text lines) →
      strategyLoop text lines (s :: rest) best bestC
        = if bestC < calculate_confidence (s.parse text lines)
          then (some (s.parse text lines), calculate_confidence (s.parse text lines))
          else (best, bestC)) := by
  refine ⟨?_, ?_, ?_, ?_⟩
  · intro h
    simp only [strategyLoop, h, Bool.false_eq_true, if_false]
  · intro h hle h900
    simp only [strategyLoop, h, if_true]
    rw [if_neg (by omega), if_neg (by omega), if_neg (by omega)]
  · intro h hlt h900
    simp only [strategyLoop, h, if_true]
    rw [if_pos hlt, if_pos hlt, if_neg (by omega)]
  · intro h h900
    simp only [strategyLoop, h, if_true]
    rw [if_pos h900]
    by_cases hlt : bestC < calculate_confidence (s.parse text lines)
    · rw [if_pos hlt, if_pos hlt, if_pos hlt]
    · rw [if_neg hlt, if_neg hlt, if_neg hlt]

set_option maxRecDepth 20000 in
/-- Witness for C7 at concrete strategies: a skipped strategy, a
no-improvement strategy, a strict improvement, and an early exit. -/
theorem C7_witness :
    strategyLoop "" [] [skipStrategy] none 0 = strategyLoop "" [] [] none 0
    ∧ strategyLoop "" [] [lowStrategy] none 0 = strategyLoop "" [] [] none 0
    ∧ strategyLoop "" [] [midStrategy, lowStrategy] none 0
      = strategyLoop "" [] [lowStrategy] (some usBankingResult) 300
    ∧ strategyLoop "" [] [highStrategy, lowStrategy] none 0
      = if 0 < calculate_confidence (highStrategy.parse "" [])
        then (some (highStrategy.parse "" []), calculate_confidence (highStrategy.parse "" []))
        else (none, 0) := by
  refine ⟨?_, ?_, ?_, ?_⟩
  · exact (C7_strategy_loop "" [] skipStrategy [] none 0).1 rfl
  · exact (C7_strategy_loop "" [] lowStrategy [] none 0).2.1 rfl (by decide) (by decide)
  · exact (C7_strategy_loop "" [] midStrategy [lowStrategy] none 0).2.2.1 rfl
      (by decide) (by decide)
  · exact (C7_strategy_loop "" [] highStrategy [lowStrategy] none 0).2.2.2 rfl (by decide)

/-- Counterexample for C9.  On a missing document the orchestrator
returns the default record, but that record does not hold the sentinel
in every field: its `vehicle_id` auxiliary is `"N/A"`. -/
theorem C9_counterexample :
    (parse_invoice (Except.error PdfError.fileNotFound) [] none 0 true).vehicle_id
      = "N/A"
    ∧ ("N/A" : String) ≠ PARSING_FAILED := by
  exact ⟨rfl, by decide⟩

/-- C9 (amended).  `parse_invoice` never raises past its boundary: for
every failure condition (missing document, page-less document, no
extractable text, corrupted source, unexpected internal error) and
every configuration it returns the structurally complete default
record, in which every field holds the sentinel except the
vehicle-matching auxiliaries `vehicle_id = "N/A"` and
`vehicle_match_score = "0.0"`. -/
theorem C9_parse_invoice_default_amended :
    (∀ (e : PdfError) (strategies : List StrategyM)
        (ml : Option (InvoiceResult × Nat)) (mlMin : Nat) (pr : Bool),
      parse_invoice (Except.error e) strategies ml mlMin pr = create_default_result)
    ∧ create_default_result.sender = PARSING_FAILED
    ∧ create_default_result.recipient = PARSING_FAILED
    ∧ create_default_result.amount = PARSING_FAILED
    ∧ create_default_result.currency = PARSING_FAILED
    ∧ create_default_result.sender_address = PARSING_FAILED
    ∧ create_default_result.recipient_address = PARSING_FAILED
    ∧ create_default_result.sender_email = PARSING_FAILED
    ∧ create_default_result.recipient_email = PARSING_FAILED
    ∧ create_default_result.invoice_number = PARSING_FAILED
    ∧ create_default_result.invoice_date = PARSING_FAILED
    ∧ create_default_result.due_date = PARSING_FAILED
    ∧ create_default_result.tax_amount = PARSING_FAILED
    ∧ create_default_result.tax_rate = PARSING_FAILED
    ∧ create_default_result.tax_id = PARSING_FAILED
    ∧ create_default_result.payment_terms = PARSING_FAILED
    ∧ create_default_result.vehicle_id = "N/A"
    ∧ create_default_result.original_recipient = PARSING_FAILED
    ∧ create_default_result.vehicle_match_score = "0.0"
    ∧ create_default_result.bank_name = PARSING_FAILED
    ∧ create_default_result.iban = PARSING_FAILED
    ∧ create_default_result.bic = PARSING_FAILED
    ∧ create_default_result.payment_address = PARSING_FAILED
    ∧ create_default_result.routing_number = PARSING_FAILED
    ∧ create_default_result.account_number = PARSING_FAILED
    ∧ create_default_result.sort_code = PARSING_FAILED
    ∧ create_default_result.payment_method = PARSING_FAILED := by
  exact ⟨fun e strategies ml mlMin pr => rfl, rfl, rfl, rfl, rfl, rfl, rfl, rfl, rfl,
    rfl, rfl, rfl, rfl, rfl, rfl, rfl, rfl, rfl, rfl, rfl, rfl, rfl, rfl, rfl, rfl,
    rfl, rfl⟩

/-- Counterexample for C3.  The text `"Vendor: Acme Corp"` triggers the
single-column-label strategy (label `Vendor:`), yet the pattern
fallback's trigger also returns true, because the fallback checks only
ten fixed marker substrings and `Vendor:` is not among them.  So the
fallback is not excluded on every text another strategy can handle. -/
theorem C3_counterexample :
    singleColumnCanHandle "Vendor: Acme Corp" ["Vendor: Acme Corp"] = true
    ∧ fallbackCanHandle "Vendor: Acme Corp" ["Vendor: Acme Corp"] = true := by
  exact ⟨rfl, rfl⟩

/-- C3 (amended).  `PatternFallbackStrategy.can_handle` returns false
whenever the text contains one of its ten case-sensitive marker
substrings (`From:`, `To:`, `Bill from:`, `Bill to:`, `Sender:`,
`Recipient:`, `Absender:`, `Empfänger:`, `Deutsche Bahn`,
`DB Vertrieb`); these markers cover common trigger forms of the other
three strategies but not all of them, so the fallback can coexist with
another applicable strategy (see the counterexample). -/
theorem C3_fallback_markers_amended (text : String) (lines : List String)
    (h : ∃ m ∈ fallbackMarkers, containsSub m.data text.data = true) :
    fallbackCanHandle text lines = false := by
  obtain ⟨m, hm, hsub⟩ := h
  simp only [fallbackMarkers, List.mem_cons, List.not_mem_nil, or_false] at hm
  rcases hm with h | h | h | h | h | h | h | h | h | h <;> subst h <;>
    simp [fallbackCanHandle, hsub]

/-- Witness for C3 (amended): a text containing the `From:` marker is
rejected by the fallback trigger. -/
theorem C3_witness : fallbackCanHandle "From: Acme" ["From: Acme"] = false :=
  C3_fallback_markers_amended "From: Acme" ["From: Acme"]
    ⟨"From:", by decide, by decide⟩

/-- Monotonicity scaffolding: the confidence shape is monotone in its
five components. -/
theorem calc_conf_le {a b c d e a2 b2 c2 d2 e2 : Nat} (h1 : a ≤ a2) (h2 : b ≤ b2)
    (h3 : c ≤ c2) (h4 : d ≤ d2) (h5 : e ≤ e2) :
    min (a + b + c + min d 300 + min e 200) 1000
      ≤ min (a2 + b2 + c2 + min d2 300 + min e2 200) 1000 := by
  omega

/-- The sentinel contributes nothing to a party score. -/
theorem partyScore_pf : partyScore PARSING_FAILED = 0 := by
  simp [partyScore, present_pf]

/-- The sentinel contributes nothing to the amount score. -/
theorem amountScore_pf : amountScore PARSING_FAILED = 0 := by
  simp [amountScore, present_pf]

/-- Resolving the currency field cannot lower the supporting score. -/
theorem suppScore_le_currency (v se re sa ra inum idate ddate terms tamt trate tid :
    String) :
    suppScore PARSING_FAILED se re sa ra inum idate ddate terms tamt trate tid
      ≤ suppScore v se re sa ra inum idate ddate terms tamt trate tid := by
  unfold suppScore
  simp [present_pf]

/-- Resolving the `se` slot cannot lower the supporting score. -/
theorem suppScore_le_se (v currency re sa ra inum idate ddate terms tamt trate tid : String) :
    suppScore currency PARSING_FAILED re sa ra inum idate ddate terms tamt trate tid
      ≤ suppScore currency v re sa ra inum idate ddate terms tamt trate tid := by
  unfold suppScore
  simp [present_pf]

/-- Resolving the `re` slot cannot lower the supporting score. -/
theorem suppScore_le_re (v currency se sa ra inum idate ddate terms tamt trate tid : String) :
    suppScore currency se PARSING_FAILED sa ra inum idate ddate terms tamt trate tid
      ≤ suppScore currency se v sa ra inum idate ddate terms tamt trate tid := by
  unfold suppScore
  simp [present_pf]

/-- Resolving the `inum` slot cannot lower the supporting score. -/
theorem suppScore_le_inum (v currency se re sa ra idate ddate terms tamt trate tid : String) :
    suppScore currency se re sa ra PARSING_FAILED idate ddate terms tamt trate tid
      ≤ suppScore currency se re sa ra v idate ddate terms tamt trate tid := by
  unfold suppScore
  simp [present_pf]

/-- Resolving the `idate` slot cannot lower the supporting score. -/
theorem suppScore_le_idate (v currency se re sa ra inum ddate terms tamt trate tid : String) :
    suppScore currency se re sa ra inum PARSING_FAILED ddate terms tamt trate tid
      ≤ suppScore currency se re sa ra inum v ddate terms tamt trate tid := by
  unfold suppScore
  simp [present_pf]

/-- Resolving the `ddate` slot cannot lower the supporting score. -/
theorem suppScore_le_ddate (v currency se re sa ra inum idate terms tamt trate tid : String) :
    suppScore currency se re sa ra inum idate PARSING_FAILED terms tamt trate tid
      ≤ suppScore currency se re sa ra inum idate v terms tamt trate tid := by
  unfold suppScore
  simp [present_pf]

/-- Resolving the `terms` slot cannot lower the supporting score. -/
theorem suppScore_le_terms (v currency se re sa ra inum idate ddate tamt trate tid : String) :
    suppScore currency se re sa ra inum idate ddate PARSING_FAILED tamt trate tid
      ≤ suppScore currency se re sa ra inum idate ddate v tamt trate tid := by
  unfold suppScore
  simp [present_pf]

/-- Resolving the `tamt` slot cannot lower the supporting score. -/
theorem suppScore_le_tamt (v currency se re sa ra inum idate ddate terms trate tid : String) :
    suppScore currency se re sa ra inum idate ddate terms PARSING_FAILED trate tid
      ≤ suppScore currency se re sa ra inum idate ddate terms v trate tid := by
  unfold suppScore
  simp [present_pf]

/-- Resolving the `trate` slot cannot lower the supporting score. -/
theorem suppScore_le_trate (v currency se re sa ra inum idate ddate terms tamt tid : String) :
    suppScore currency se re sa ra inum idate ddate terms tamt PARSING_FAILED tid
      ≤ suppScore currency se re sa ra inum idate ddate terms tamt v tid := by
  unfold suppScore
  simp [present_pf]

/-- Resolving the `tid` slot cannot lower the supporting score. -/
theorem suppScore_le_tid (v currency se re sa ra inum idate ddate terms tamt trate : String) :
    suppScore currency se re sa ra inum idate ddate terms tamt trate PARSING_FAILED
      ≤ suppScore currency se re sa ra inum idate ddate terms tamt trate v := by
  unfold suppScore
  simp [present_pf]

/-- Resolving the sender-address slot cannot lower the supporting
score. -/
theorem suppScore_le_sa (v currency se re ra inum idate ddate terms tamt trate tid :
    String) :
    suppScore currency se re PARSING_FAILED ra inum idate ddate terms tamt trate tid
      ≤ suppScore currency se re v ra inum idate ddate terms tamt trate tid := by
  unfold suppScore
  by_cases hra : present ra = true
  · simp [hra, present_pf]
  · simp [hra, present_pf]

/-- Resolving the recipient-address slot cannot lower the supporting
score. -/
theorem suppScore_le_ra (v currency se re sa inum idate ddate terms tamt trate tid :
    String) :
    suppScore currency se re sa PARSING_FAILED inum idate ddate terms tamt trate tid
      ≤ suppScore currency se re sa v inum idate ddate terms tamt trate tid := by
  unfold suppScore
  by_cases hsa : present sa = true
  · simp [hsa, present_pf]
  · simp [hsa, present_pf]

/-- Resolving the BIC slot cannot lower the banking score. -/
theorem bankingScore_le_bic (iban routing account sortc pm bank v : String) :
    bankingScore iban PARSING_FAILED routing account sortc pm bank
      ≤ bankingScore iban v routing account sortc pm bank := by
  unfold bankingScore
  by_cases hi : present iban = true
  · simp [hi, present_pf]
  · simp [hi]

/-- Resolving the payment-method slot cannot lower the banking score. -/
theorem bankingScore_le_pm (iban bic routing account sortc bank v : String) :
    bankingScore iban bic routing account sortc PARSING_FAILED bank
      ≤ bankingScore iban bic routing account sortc v bank := by
  have h1 : ¬ (PARSING_FAILED = "SEPA" ∨ PARSING_FAILED = "SEPA_INTERNATIONAL") := by
    decide
  have h2 : ¬ (PARSING_FAILED = "ACH") := by decide
  have h3 : ¬ (PARSING_FAILED = "BACS") := by decide
  unfold bankingScore
  by_cases hi : present iban = true
  · simp [hi, h1]
  · by_cases hr : present routing = true
    · simp [hi, hr, h2]
    · by_cases hs : present sortc = true
      · simp [hi, hr, hs, h3]
      · simp [hi, hr, hs]

/-- Resolving the sort-code slot cannot lower the banking score. -/
theorem bankingScore_le_sort (iban bic routing account pm bank v : String) :
    bankingScore iban bic routing account PARSING_FAILED pm bank
      ≤ bankingScore iban bic routing account v pm bank := by
  unfold bankingScore
  by_cases hi : present iban = true
  · simp [hi]
  · by_cases hr : present routing = true
    · simp [hi, hr]
    · simp [hi, hr, present_pf]
      by_cases hv : present v = true
      · simp [hv]
        omega
      · simp [hv]

/-- Resolving the account-number slot cannot lower the banking score. -/
theorem bankingScore_le_account (iban bic routing sortc pm bank v : String) :
    bankingScore iban bic routing PARSING_FAILED sortc pm bank
      ≤ bankingScore iban bic routing v sortc pm bank := by
  unfold bankingScore
  by_cases hi : present iban = true
  · simp [hi]
  · by_cases hr : present routing = true
    · simp [hi, hr, present_pf]
    · by_cases hs : present sortc = true
      · simp [hi, hr, hs, present_pf]
      · simp [hi, hr, hs, present_pf]

/-- Resolving the bank-name slot cannot lower the banking score. -/
theorem bankingScore_le_bank (iban bic routing account sortc pm v : String) :
    bankingScore iban bic routing account sortc pm PARSING_FAILED
      ≤ bankingScore iban bic routing account sortc pm v := by
  unfold bankingScore
  simp [present_pf]

/-- Resolving the `sender` field from the sentinel never lowers the
confidence score. -/
theorem conf_mono_sender (r : InvoiceResult) (v : String)
    (h : r.sender = PARSING_FAILED) :
    calculate_confidence r ≤ calculate_confidence { r with sender := v } := by
  unfold calculate_confidence
  refine calc_conf_le ?_ le_rfl le_rfl le_rfl le_rfl
  rw [h, partyScore_pf]
  exact Nat.zero_le _

/-- Resolving the `recipient` field from the sentinel never lowers the
confidence score. -/
theorem conf_mono_recipient (r : InvoiceResult) (v : String)
    (h : r.recipient = PARSING_FAILED) :
    calculate_confidence r ≤ calculate_confidence { r with recipient := v } := by
  unfold calculate_confidence
  refine calc_conf_le le_rfl ?_ le_rfl le_rfl le_rfl
  rw [h, partyScore_pf]
  exact Nat.zero_le _

/-- Resolving the `amount` field from the sentinel never lowers the
confidence score. -/
theorem conf_mono_amount (r : InvoiceResult) (v : String)
    (h : r.amount = PARSING_FAILED) :
    calculate_confidence r ≤ calculate_confidence { r with amount := v } := by
  unfold calculate_confidence
  refine calc_conf_le le_rfl le_rfl ?_ le_rfl le_rfl
  rw [h, amountScore_pf]
  exact Nat.zero_le _

/-- Resolving the `currency` field from the sentinel never lowers the
confidence score. -/
theorem conf_mono_currency (r : InvoiceResult) (v : String)
    (h : r.currency = PARSING_FAILED) :
    calculate_confidence r ≤ calculate_confidence { r with currency := v } := by
  unfold calculate_confidence
  refine calc_conf_le le_rfl le_rfl le_rfl le_rfl ?_
  rw [h]
  exact suppScore_le_currency v r.sender_email r.recipient_email r.sender_address r.recipient_address r.invoice_number r.invoice_date r.due_date r.payment_terms r.tax_amount r.tax_rate r.tax_id

/-- Resolving the `sender_email` field from the sentinel never lowers the
confidence score. -/
theorem conf_mono_sender_email (r : InvoiceResult) (v : String)
    (h : r.sender_email = PARSING_FAILED) :
    calculate_confidence r ≤ calculate_confidence { r with sender_email := v } := by
  unfold calculate_confidence
  refine calc_conf_le le_rfl le_rfl le_rfl le_rfl ?_
  rw [h]
  exact suppScore_le_se v r.currency r.recipient_email r.sender_address r.recipient_address r.invoice_number r.invoice_date r.due_date r.payment_terms r.tax_amount r.tax_rate r.tax_id

/-- Resolving the `recipient_email` field from the sentinel never lowers the
confidence score. -/
theorem conf_mono_recipient_email (r : InvoiceResult) (v : String)
    (h : r.recipient_email = PARSING_FAILED) :
    calculate_confidence r ≤ calculate_confidence { r with recipient_email := v } := by
  unfold calculate_confidence
  refine calc_conf_le le_rfl le_rfl le_rfl le_rfl ?_
  rw [h]
  exact suppScore_le_re v r.currency r.sender_email r.sender_address r.recipient_address r.invoice_number r.invoice_date r.due_date r.payment_terms r.tax_amount r.tax_rate r.tax_id

/-- Resolving the `sender_address` field from the sentinel never lowers the
confidence score. -/
theorem conf_mono_sender_address (r : InvoiceResult) (v : String)
    (h : r.sender_address = PARSING_FAILED) :
    calculate_confidence r ≤ calculate_confidence { r with sender_address := v } := by
  unfold calculate_confidence
  refine calc_conf_le le_rfl le_rfl le_rfl le_rfl ?_
  rw [h]
  exact suppScore_le_sa v r.currency r.sender_email r.recipient_email r.recipient_address r.invoice_number r.invoice_date r.due_date r.payment_terms r.tax_amount r.tax_rate r.tax_id

/-- Resolving the `recipient_address` field from the sentinel never lowers the
confidence score. -/
theorem conf_mono_recipient_address (r : InvoiceResult) (v : String)
    (h : r.recipient_address = PARSING_FAILED) :
    calculate_confidence r ≤ calculate_confidence { r with recipient_address := v } := by
  unfold calculate_confidence
  refine calc_conf_le le_rfl le_rfl le_rfl le_rfl ?_
  rw [h]
  exact suppScore_le_ra v r.currency r.sender_email r.recipient_email r.sender_address r.invoice_number r.invoice_date r.due_date r.payment_terms r.tax_amount r.tax_rate r.tax_id

/-- Resolving the `invoice_number` field from the sentinel never lowers the
confidence score. -/
theorem conf_mono_invoice_number (r : InvoiceResult) (v : String)
    (h : r.invoice_number = PARSING_FAILED) :
    calculate_confidence r ≤ calculate_confidence { r with invoice_number := v } := by
  unfold calculate_confidence
  refine calc_conf_le le_rfl le_rfl le_rfl le_rfl ?_
  rw [h]
  exact suppScore_le_inum v r.currency r.sender_email r.recipient_email r.sender_address r.recipient_address r.invoice_date r.due_date r.payment_terms r.tax_amount r.tax_rate r.tax_id

/-- Resolving the `invoice_date` field from the sentinel never lowers the
confidence score. -/
theorem conf_mono_invoice_date (r : InvoiceResult) (v : String)
    (h : r.invoice_date = PARSING_FAILED) :
    calculate_confidence r ≤ calculate_confidence { r with invoice_date := v } := by
  unfold calculate_confidence
  refine calc_conf_le le_rfl le_rfl le_rfl le_rfl ?_
  rw [h]
  exact suppScore_le_idate v r.currency r.sender_email r.recipient_email r.sender_address r.recipient_address r.invoice_number r.due_date r.payment_terms r.tax_amount r.tax_rate r.tax_id

/-- Resolving the `due_date` field from the sentinel never lowers the
confidence score. -/
theorem conf_mono_due_date (r : InvoiceResult) (v : String)
    (h : r.due_date = PARSING_FAILED) :
    calculate_confidence r ≤ calculate_confidence { r with due_date := v } := by
  unfold calculate_confidence
  refine calc_conf_le le_rfl le_rfl le_rfl le_rfl ?_
  rw [h]
  exact suppScore_le_ddate v r.currency r.sender_email r.recipient_email r.sender_address r.recipient_address r.invoice_number r.invoice_date r.payment_terms r.tax_amount r.tax_rate r.tax_id

/-- Resolving the `payment_terms` field from the sentinel never lowers the
confidence score. -/
theorem conf_mono_payment_terms (r : InvoiceResult) (v : String)
    (h : r.payment_terms = PARSING_FAILED) :
    calculate_confidence r ≤ calculate_confidence { r with payment_terms := v } := by
  unfold calculate_confidence
  refine calc_conf_le le_rfl le_rfl le_rfl le_rfl ?_
  rw [h]
  exact suppScore_le_terms v r.currency r.sender_email r.recipient_email r.sender_address r.recipient_address r.invoice_number r.invoice_date r.due_date r.tax_amount r.tax_rate r.tax_id

/-- Resolving the `tax_amount` field from the sentinel never lowers the
confidence score. -/
theorem conf_mono_tax_amount (r : InvoiceResult) (v : String)
    (h : r.tax_amount = PARSING_FAILED) :
    calculate_confidence r ≤ calculate_confidence { r with tax_amount := v } := by
  unfold calculate_confidence
  refine calc_conf_le le_rfl le_rfl le_rfl le_rfl ?_
  rw [h]
  exact suppScore_le_tamt v r.currency r.sender_email r.recipient_email r.sender_address r.recipient_address r.invoice_number r.invoice_date r.due_date r.payment_terms r.tax_rate r.tax_id

/-- Resolving the `tax_rate` field from the sentinel never lowers the
confidence score. -/
theorem conf_mono_tax_rate (r : InvoiceResult) (v : String)
    (h : r.tax_rate = PARSING_FAILED) :
    calculate_confidence r ≤ calculate_confidence { r with tax_rate := v } := by
  unfold calculate_confidence
  refine calc_conf_le le_rfl le_rfl le_rfl le_rfl ?_
  rw [h]
  exact suppScore_le_trate v r.currency r.sender_email r.recipient_email r.sender_address r.recipient_address r.invoice_number r.invoice_date r.due_date r.payment_terms r.tax_amount r.tax_id

/-- Resolving the `tax_id` field from the sentinel never lowers the
confidence score. -/
theorem conf_mono_tax_id (r : InvoiceResult) (v : String)
    (h : r.tax_id = PARSING_FAILED) :
    calculate_confidence r ≤ calculate_confidence { r with tax_id := v } := by
  unfold calculate_confidence
  refine calc_conf_le le_rfl le_rfl le_rfl le_rfl ?_
  rw [h]
  exact suppScore_le_tid v r.currency r.sender_email r.recipient_email r.sender_address r.recipient_address r.invoice_number r.invoice_date r.due_date r.payment_terms r.tax_amount r.tax_rate

/-- Resolving the `bic` field from the sentinel never lowers the
confidence score. -/
theorem conf_mono_bic (r : InvoiceResult) (v : String)
    (h : r.bic = PARSING_FAILED) :
    calculate_confidence r ≤ calculate_confidence { r with bic := v } := by
  unfold calculate_confidence
  refine calc_conf_le le_rfl le_rfl le_rfl ?_ le_rfl
  rw [h]
  exact bankingScore_le_bic r.iban r.routing_number r.account_number r.sort_code r.payment_method r.bank_name v

/-- Resolving the `payment_method` field from the sentinel never lowers the
confidence score. -/
theorem conf_mono_payment_method (r : InvoiceResult) (v : String)
    (h : r.payment_method = PARSING_FAILED) :
    calculate_confidence r ≤ calculate_confidence { r with payment_method := v } := by
  unfold calculate_confidence
  refine calc_conf_le le_rfl le_rfl le_rfl ?_ le_rfl
  rw [h]
  exact bankingScore_le_pm r.iban r.bic r.routing_number r.account_number r.sort_code r.bank_name v

/-- Resolving the `sort_code` field from the sentinel never lowers the
confidence score. -/
theorem conf_mono_sort_code (r : InvoiceResult) (v : String)
    (h : r.sort_code = PARSING_FAILED) :
    calculate_confidence r ≤ calculate_confidence { r with sort_code := v } := by
  unfold calculate_confidence
  refine calc_conf_le le_rfl le_rfl le_rfl ?_ le_rfl
  rw [h]
  exact bankingScore_le_sort r.iban r.bic r.routing_number r.account_number r.payment_method r.bank_name v

/-- Resolving the `account_number` field from the sentinel never lowers the
confidence score. -/
theorem conf_mono_account_number (r : InvoiceResult) (v : String)
    (h : r.account_number = PARSING_FAILED) :
    calculate_confidence r ≤ calculate_confidence { r with account_number := v } := by
  unfold calculate_confidence
  refine calc_conf_le le_rfl le_rfl le_rfl ?_ le_rfl
  rw [h]
  exact bankingScore_le_account r.iban r.bic r.routing_number r.sort_code r.payment_method r.bank_name v

/-- Resolving the `bank_name` field from the sentinel never lowers the
confidence score. -/
theorem conf_mono_bank_name (r : InvoiceResult) (v : String)
    (h : r.bank_name = PARSING_FAILED) :
    calculate_confidence r ≤ calculate_confidence { r with bank_name := v } := by
  unfold calculate_confidence
  refine calc_conf_le le_rfl le_rfl le_rfl ?_ le_rfl
  rw [h]
  exact bankingScore_le_bank r.iban r.bic r.routing_number r.account_number r.sort_code r.payment_method v

/-- Resolving the `vehicle_id` field from the sentinel never lowers the
confidence score. -/
theorem conf_mono_vehicle_id (r : InvoiceResult) (v : String)
    (_h : r.vehicle_id = PARSING_FAILED) :
    calculate_confidence r ≤ calculate_confidence { r with vehicle_id := v } := by
  unfold calculate_confidence
  exact calc_conf_le le_rfl le_rfl le_rfl le_rfl le_rfl

/-- Resolving the `original_recipient` field from the sentinel never lowers the
confidence score. -/
theorem conf_mono_original_recipient (r : InvoiceResult) (v : String)
    (_h : r.original_recipient = PARSING_FAILED) :
    calculate_confidence r ≤ calculate_confidence { r with original_recipient := v } := by
  unfold calculate_confidence
  exact calc_conf_le le_rfl le_rfl le_rfl le_rfl le_rfl

/-- Resolving the `vehicle_match_score` field from the sentinel never lowers the
confidence score. -/
theorem conf_mono_vehicle_match_score (r : InvoiceResult) (v : String)
    (_h : r.vehicle_match_score = PARSING_FAILED) :
    calculate_confidence r ≤ calculate_confidence { r with vehicle_match_score := v } := by
  unfold calculate_confidence
  exact calc_conf_le le_rfl le_rfl le_rfl le_rfl le_rfl

/-- Resolving the `payment_address` field from the sentinel never lowers the
confidence score. -/
theorem conf_mono_payment_address (r : InvoiceResult) (v : String)
    (_h : r.payment_address = PARSING_FAILED) :
    calculate_confidence r ≤ calculate_confidence { r with payment_address := v } := by
  unfold calculate_confidence
  exact calc_conf_le le_rfl le_rfl le_rfl le_rfl le_rfl

set_option maxRecDepth 20000 in
/-- Counterexample for C1.  The banking bucket of
`calculate_confidence` is an if/elif chain over mutually exclusive
banking systems, so resolving one more field from the sentinel to a
validator-passing value can strictly lower the score: adding a
checksum-valid IBAN to a record holding a full US banking block drops
the banking bucket from 300 to 150 per-mille, and adding a
checksum-valid routing number to a full UK banking block drops it from
300 to 250 per-mille. -/
theorem C1_counterexample :
    (validate_iban "DE89370400440532013000" = true
      ∧ usBankingResult.iban = PARSING_FAILED
      ∧ usBankingWithIban = { usBankingResult with iban := "DE89370400440532013000" }
      ∧ calculate_confidence usBankingWithIban < calculate_confidence usBankingResult)
    ∧ (validate_aba_routing "121000248" = true
      ∧ ukBankingResult.routing_number = PARSING_FAILED
      ∧ ukBankingWithRouting = { ukBankingResult with routing_number := "121000248" }
      ∧ calculate_confidence ukBankingWithRouting
          < calculate_confidence ukBankingResult) := by
  exact ⟨⟨by decide, rfl, rfl, by decide⟩, ⟨by decide, rfl, rfl, by decide⟩⟩

/-- C1 (amended).  The confidence score is monotone non-decreasing in
the transition of any one field from the sentinel to any value, for
every field except `iban` and `routing_number` (whose transitions can
switch the mutually exclusive banking branch, see the counterexample).
-/
theorem C1_confidence_monotone_amended :
    (∀ (r : InvoiceResult) (v : String), r.sender = PARSING_FAILED →
      calculate_confidence r ≤ calculate_confidence { r with sender := v })
    ∧ (∀ (r : InvoiceResult) (v : String), r.recipient = PARSING_FAILED →
      calculate_confidence r ≤ calculate_confidence { r with recipient := v })
    ∧ (∀ (r : InvoiceResult) (v : String), r.amount = PARSING_FAILED →
      calculate_confidence r ≤ calculate_confidence { r with amount := v })
    ∧ (∀ (r : InvoiceResult) (v : String), r.currency = PARSING_FAILED →
      calculate_confidence r ≤ calculate_confidence { r with currency := v })
    ∧ (∀ (r : InvoiceResult) (v : String), r.sender_address = PARSING_FAILED →
      calculate_confidence r ≤ calculate_confidence { r with sender_address := v })
    ∧ (∀ (r : InvoiceResult) (v : String), r.recipient_address = PARSING_FAILED →
      calculate_confidence r ≤ calculate_confidence { r with recipient_address := v })
    ∧ (∀ (r : InvoiceResult) (v : String), r.sender_email = PARSING_FAILED →
      calculate_confidence r ≤ calculate_confidence { r with sender_email := v })
    ∧ (∀ (r : InvoiceResult) (v : String), r.recipient_email = PARSING_FAILED →
      calculate_confidence r ≤ calculate_confidence { r with recipient_email := v })
    ∧ (∀ (r : InvoiceResult) (v : String), r.invoice_number = PARSING_FAILED →
      calculate_confidence r ≤ calculate_confidence { r with invoice_number := v })
    ∧ (∀ (r : InvoiceResult) (v : String), r.invoice_date = PARSING_FAILED →
      calculate_confidence r ≤ calculate_confidence { r with invoice_date := v })
    ∧ (∀ (r : InvoiceResult) (v : String), r.due_date = PARSING_FAILED →
      calculate_confidence r ≤ calculate_confidence { r with due_date := v })
    ∧ (∀ (r : InvoiceResult) (v : String), r.tax_amount = PARSING_FAILED →
      calculate_confidence r ≤ calculate_confidence { r with tax_amount := v })
    ∧ (∀ (r : InvoiceResult) (v : String), r.tax_rate = PARSING_FAILED →
      calculate_confidence r ≤ calculate_confidence { r with tax_rate := v })
    ∧ (∀ (r : InvoiceResult) (v : String), r.tax_id = PARSING_FAILED →
      calculate_confidence r ≤ calculate_confidence { r with tax_id := v })
    ∧ (∀ (r : InvoiceResult) (v : String), r.payment_terms = PARSING_FAILED →
      calculate_confidence r ≤ calculate_confidence { r with payment_terms := v })
    ∧ (∀ (r : InvoiceResult) (v : String), r.vehicle_id = PARSING_FAILED →
      calculate_confidence r ≤ calculate_confidence { r with vehicle_id := v })
    ∧ (∀ (r : InvoiceResult) (v : String), r.original_recipient = PARSING_FAILED →
      calculate_confidence r ≤ calculate_confidence { r with original_recipient := v })
    ∧ (∀ (r : InvoiceResult) (v : String), r.vehicle_match_score = PARSING_FAILED →
      calculate_confidence r ≤ calculate_confidence { r with vehicle_match_score := v })
    ∧ (∀ (r : InvoiceResult) (v : String), r.bank_name = PARSING_FAILED →
      calculate_confidence r ≤ calculate_confidence { r with bank_name := v })
    ∧ (∀ (r : InvoiceResult) (v : String), r.bic = PARSING_FAILED →
      calculate_confidence r ≤ calculate_confidence { r with bic := v })
    ∧ (∀ (r : InvoiceResult) (v : String), r.payment_address = PARSING_FAILED →
      calculate_confidence r ≤ calculate_confidence { r with payment_address := v })
    ∧ (∀ (r : InvoiceResult) (v : String), r.account_number = PARSING_FAILED →
      calculate_confidence r ≤ calculate_confidence { r with account_number := v })
    ∧ (∀ (r : InvoiceResult) (v : String), r.sort_code = PARSING_FAILED →
      calculate_confidence r ≤ calculate_confidence { r with sort_code := v })
    ∧ (∀ (r : InvoiceResult) (v : String), r.payment_method = PARSING_FAILED →
      calculate_confidence r ≤ calculate_confidence { r with payment_method := v }) := by
  exact ⟨conf_mono_sender, conf_mono_recipient, conf_mono_amount, conf_mono_currency, conf_mono_sender_address, conf_mono_recipient_address, conf_mono_sender_email, conf_mono_recipient_email, conf_mono_invoice_number, conf_mono_invoice_date, conf_mono_due_date, conf_mono_tax_amount, conf_mono_tax_rate, conf_mono_tax_id, conf_mono_payment_terms, conf_mono_vehicle_id, conf_mono_original_recipient, conf_mono_vehicle_match_score, conf_mono_bank_name, conf_mono_bic, conf_mono_payment_address, conf_mono_account_number, conf_mono_sort_code, conf_mono_payment_method⟩

/-- Witness for C1 (amended), instantiating every conjunct at the
default record. -/
theorem C1_witness :
    calculate_confidence create_default_result
      ≤ calculate_confidence { create_default_result with sender := "x" }
    ∧ calculate_confidence create_default_result
      ≤ calculate_confidence { create_default_result with recipient := "x" }
    ∧ calculate_confidence create_default_result
      ≤ calculate_confidence { create_default_result with amount := "x" }
    ∧ calculate_confidence create_default_result
      ≤ calculate_confidence { create_default_result with currency := "x" }
    ∧ calculate_confidence create_default_result
      ≤ calculate_confidence { create_default_result with sender_address := "x" }
    ∧ calculate_confidence create_default_result
      ≤ calculate_confidence { create_default_result with recipient_address := "x" }
    ∧ calculate_confidence create_default_result
      ≤ calculate_confidence { create_default_result with sender_email := "x" }
    ∧ calculate_confidence create_default_result
      ≤ calculate_confidence { create_default_result with recipient_email := "x" }
    ∧ calculate_confidence create_default_result
      ≤ calculate_confidence { create_default_result with invoice_number := "x" }
    ∧ calculate_confidence create_default_result
      ≤ calculate_confidence { create_default_result with invoice_date := "x" }
    ∧ calculate_confidence create_default_result
      ≤ calculate_confidence { create_default_result with due_date := "x" }
    ∧ calculate_confidence create_default_result
      ≤ calculate_confidence { create_default_result with tax_amount := "x" }
    ∧ calculate_confidence create_default_result
      ≤ calculate_confidence { create_default_result with tax_rate := "x" }
    ∧ calculate_confidence create_default_result
      ≤ calculate_confidence { create_default_result with tax_id := "x" }
    ∧ calculate_confidence create_default_result
      ≤ calculate_confidence { create_default_result with payment_terms := "x" }
    ∧ calculate_confidence { create_default_result with vehicle_id := PARSING_FAILED }
      ≤ calculate_confidence { { create_default_result with vehicle_id := PARSING_FAILED } with vehicle_id := "x" }
    ∧ calculate_confidence create_default_result
      ≤ calculate_confidence { create_default_result with original_recipient := "x" }
    ∧ calculate_confidence { create_default_result with vehicle_match_score := PARSING_FAILED }
      ≤ calculate_confidence { { create_default_result with vehicle_match_score := PARSING_FAILED } with vehicle_match_score := "x" }
    ∧ calculate_confidence create_default_result
      ≤ calculate_confidence { create_default_result with bank_name := "x" }
    ∧ calculate_confidence create_default_result
      ≤ calculate_confidence { create_default_result with bic := "x" }
    ∧ calculate_confidence create_default_result
      ≤ calculate_confidence { create_default_result with payment_address := "x" }
    ∧ calculate_confidence create_default_result
      ≤ calculate_confidence { create_default_result with account_number := "x" }
    ∧ calculate_confidence create_default_result
      ≤ calculate_confidence { create_default_result with sort_code := "x" }
    ∧ calculate_confidence create_default_result
      ≤ calculate_confidence { create_default_result with payment_method := "x" } := by
  have h := C1_confidence_monotone_amended
  exact ⟨h.1 create_default_result "x" rfl,
    h.2.1 create_default_result "x" rfl,
    h.2.2.1 create_default_result "x" rfl,
    h.2.2.2.1 create_default_result "x" rfl,
    h.2.2.2.2.1 create_default_result "x" rfl,
    h.2.2.2.2.2.1 create_default_result "x" rfl,
    h.2.2.2.2.2.2.1 create_default_result "x" rfl,
    h.2.2.2.2.2.2.2.1 create_default_result "x" rfl,
    h.2.2.2.2.2.2.2.2.1 create_default_result "x" rfl,
    h.2.2.2.2.2.2.2.2.2.1 create_default_result "x" rfl,
    h.2.2.2.2.2.2.2.2.2.2.1 create_default_result "x" rfl,
    h.2.2.2.2.2.2.2.2.2.2.2.1 create_default_result "x" rfl,
    h.2.2.2.2.2.2.2.2.2.2.2.2.1 create_default_result "x" rfl,
    h.2.2.2.2.2.2.2.2.2.2.2.2.2.1 create_default_result "x" rfl,
    h.2.2.2.2.2.2.2.2.2.2.2.2.2.2.1 create_default_result "x" rfl,
    h.2.2.2.2.2.2.2.2.2.2.2.2.2.2.2.1 { create_default_result with vehicle_id := PARSING_FAILED } "x" rfl,
    h.2.2.2.2.2.2.2.2.2.2.2.2.2.2.2.2.1 create_default_result "x" rfl,
    h.2.2.2.2.2.2.2.2.2.2.2.2.2.2.2.2.2.1 { create_default_result with vehicle_match_score := PARSING_FAILED } "x" rfl,
    h.2.2.2.2.2.2.2.2.2.2.2.2.2.2.2.2.2.2.1 create_default_result "x" rfl,
    h.2.2.2.2.2.2.2.2.2.2.2.2.2.2.2.2.2.2.2.1 create_default_result "x" rfl,
    h.2.2.2.2.2.2.2.2.2.2.2.2.2.2.2.2.2.2.2.2.1 create_default_result "x" rfl,
    h.2.2.2.2.2.2.2.2.2.2.2.2.2.2.2.2.2.2.2.2.2.1 create_default_result "x" rfl,
    h.2.2.2.2.2.2.2.2.2.2.2.2.2.2.2.2.2.2.2.2.2.2.1 create_default_result "x" rfl,
    h.2.2.2.2.2.2.2.2.2.2.2.2.2.2.2.2.2.2.2.2.2.2.2 create_default_result "x" rfl⟩

/-- Turning commas into dots accumulates both separator counts on the
dot. -/
theorem count_dot_replaceChar (l : List Char) :
    (replaceChar ',' '.' l).count '.' = l.count '.' + l.count ',' := by
  induction l with
  | nil => rfl
  | cons c t ih =>
    by_cases hc : c = ','
    · subst hc
      simp only [replaceChar, List.map_cons, if_pos rfl, List.count_cons] at ih ⊢
      rw [ih]
      simp
      omega
    · by_cases hd : c = '.'
      · subst hd
        simp only [replaceChar, List.map_cons, if_neg hc, List.count_cons] at ih ⊢
        rw [ih]
        simp [hc]
        omega
      · simp only [replaceChar, List.map_cons, if_neg hc, List.count_cons] at ih ⊢
        rw [ih]
        simp [hc, hd, Ne.symm hc, Ne.symm hd]

/-- Dropping a whitespace prefix keeps the count of any non-whitespace
character. -/
theorem count_dropWhile_ws (a : Char) (ha : pyWs a = false) (m : List Char) :
    (m.dropWhile pyWs).count a = m.count a := by
  conv_rhs => rw [← List.takeWhile_append_dropWhile (p := pyWs) (l := m)]
  rw [List.count_append]
  have hz : (m.takeWhile pyWs).count a = 0 := by
    rw [List.count_eq_zero]
    intro hmem
    have hw := List.mem_takeWhile_imp hmem
    rw [hw] at ha
    cases ha
  omega

/-- Whitespace stripping keeps the count of any non-whitespace
character. -/
theorem count_stripWs (a : Char) (ha : pyWs a = false) (l : List Char) :
    (stripWs l).count a = l.count a := by
  unfold stripWs
  rw [List.count_reverse, count_dropWhile_ws a ha, List.count_reverse,
    count_dropWhile_ws a ha]

/-- Unfolding equation of the digit-run scanner on a non-empty
input. -/
theorem digitRun_cons (acc k : Nat) (c : Char) (rest : List Char) :
    digitRun acc k (c :: rest)
      = (if pyDigit c then digitRun (acc * 10 + digitVal c) (k + 1) rest
         else if c = '_' then
           (match rest with
            | d :: rest2 =>
              if pyDigit d then digitRun (acc * 10 + digitVal d) (k + 1) rest2
              else (acc, k, c :: rest)
            | [] => (acc, k, [c]))
         else (acc, k, c :: rest)) := by
  rw [digitRun.eq_def]

/-- The digit-run scanner only consumes digits and underscores: its
remainder is a suffix of the input and the consumed prefix consists of
digits and underscores. -/
theorem digitRun_split : ∀ (n : Nat) (l : List Char), l.length ≤ n → ∀ acc k : Nat,
    ∃ pre : List Char, l = pre ++ (digitRun acc k l).2.2
      ∧ ∀ c ∈ pre, pyDigit c = true ∨ c = '_' := by
  intro n
  induction n with
  | zero =>
    intro l hl acc k
    have h0 : l = [] := List.eq_nil_of_length_eq_zero (Nat.le_zero.mp hl)
    subst h0
    exact ⟨[], rfl, by simp⟩
  | succ n ih =>
    intro l hl acc k
    match l, hl with
    | [], _ => exact ⟨[], rfl, by simp⟩
    | c :: rest, hl =>
      by_cases hd : pyDigit c = true
      · rw [digitRun_cons, if_pos hd]
        obtain ⟨pre, hpre, hall⟩ := ih rest (by simp at hl; omega)
          (acc * 10 + digitVal c) (k + 1)
        refine ⟨c :: pre, by rw [List.cons_append, ← hpre], ?_⟩
        intro x hx
        rcases List.mem_cons.mp hx with hx | hx
        · subst hx; exact Or.inl hd
        · exact hall x hx
      · by_cases hu : c = '_'
        · subst hu
          rw [digitRun_cons, if_neg hd, if_pos rfl]
          match rest with
          | [] => exact ⟨[], rfl, by simp⟩
          | d :: rest2 =>
            show ∃ pre, '_' :: d :: rest2
                = pre ++ ((if pyDigit d = true then
                      digitRun (acc * 10 + digitVal d) (k + 1) rest2
                    else (acc, k, '_' :: d :: rest2)).2.2)
                ∧ ∀ c ∈ pre, pyDigit c = true ∨ c = '_'
            by_cases hd2 : pyDigit d = true
            · rw [if_pos hd2]
              obtain ⟨pre, hpre, hall⟩ := ih rest2 (by simp at hl; omega)
                (acc * 10 + digitVal d) (k + 1)
              refine ⟨'_' :: d :: pre,
                by rw [List.cons_append, List.cons_append, ← hpre], ?_⟩
              intro x hx
              rcases List.mem_cons.mp hx with hx | hx
              · subst hx; exact Or.inr rfl
              · rcases List.mem_cons.mp hx with hx | hx
                · subst hx; exact Or.inl hd2
                · exact hall x hx
            · rw [if_neg hd2]
              exact ⟨[], rfl, by simp⟩
        · rw [digitRun_cons, if_neg hd, if_neg hu]
          exact ⟨[], rfl, by simp⟩

/-- A prefix made of digits and underscores contains no dot. -/
theorem count_dot_digit_pre {pre : List Char}
    (h : ∀ c ∈ pre, pyDigit c = true ∨ c = '_') : pre.count '.' = 0 := by
  rw [List.count_eq_zero]
  intro hmem
  rcases h '.' hmem with h1 | h1
  · exact absurd h1 (by decide)
  · exact absurd h1 (by decide)

/-- A successful `digitpart` parse preserves the number of dots into
its remainder. -/
theorem floatDigitPart_count_dot {l r : List Char} {v k : Nat}
    (h : floatDigitPart? l = some (v, k, r)) : l.count '.' = r.count '.' := by
  match l with
  | [] => exact absurd h (by simp [floatDigitPart?])
  | c :: rest =>
    rw [show floatDigitPart? (c :: rest)
        = if pyDigit c then some (digitRun (digitVal c) 1 rest) else none from rfl] at h
    by_cases hd : pyDigit c = true
    · rw [if_pos hd] at h
      obtain ⟨pre, hpre, hall⟩ := digitRun_split rest.length rest le_rfl (digitVal c) 1
      have hr : (digitRun (digitVal c) 1 rest).2.2 = r := by
        rw [Option.some.injEq] at h
        rw [h]
      rw [hr] at hpre
      have hc : c :: rest = (c :: pre) ++ r := by rw [hpre, List.cons_append]
      rw [hc, List.count_append]
      have hz : (c :: pre).count '.' = 0 := by
        apply count_dot_digit_pre
        intro x hx
        rcases List.mem_cons.mp hx with hx | hx
        · subst hx; exact Or.inl hd
        · exact hall x hx
      omega
    · rw [if_neg hd] at h
      cases h

/-- A `digitpart` parse with empty remainder means the input contained
no dot at all. -/
theorem floatDigitPart_all_no_dot {l : List Char} {v k : Nat}
    (h : floatDigitPart? l = some (v, k, [])) : l.count '.' = 0 := by
  have := floatDigitPart_count_dot h
  simpa using this

/-- A successful exponent parse means its input contained no dot. -/
theorem floatExpPart_no_dot {l : List Char} {e : Int}
    (h : floatExpPart? l = some e) : l.count '.' = 0 := by
  unfold floatExpPart? at h
  split at h
  · exact absurd h (by simp)
  next c rest =>
    split at h
    next hp =>
      subst hp
      split at h
      next v k2 r heq =>
        split at h
        next hr =>
          have hr0 : r = [] := by
            cases r with
            | nil => rfl
            | cons a b => simp [List.isEmpty] at hr
          subst hr0
          rw [List.count_cons, floatDigitPart_all_no_dot heq]
          simp
        next hr => cases h
      next heq => cases h
    next hp =>
      split at h
      next hm =>
        subst hm
        split at h
        next v k2 r heq =>
          split at h
          next hr =>
            have hr0 : r = [] := by
              cases r with
              | nil => rfl
              | cons a b => simp [List.isEmpty] at hr
            subst hr0
            rw [List.count_cons, floatDigitPart_all_no_dot heq]
            simp
          next hr => cases h
        next heq => cases h
      next hm =>
        split at h
        next v k2 r heq =>
          split at h
          next hr =>
            have hr0 : r = [] := by
              cases r with
              | nil => rfl
              | cons a b => simp [List.isEmpty] at hr
            subst hr0
            exact floatDigitPart_all_no_dot heq
          next hr => cases h
        next heq => cases h

/-- A recognized special token (`inf` / `infinity` / `nan`) contains
no dot. -/
theorem floatSpecial_no_dot {l : List Char} {v : PyFloat}
    (h : floatSpecial? l = some v) : l.count '.' = 0 := by
  unfold floatSpecial? at h
  rw [List.count_eq_zero]
  intro hmem
  have hmap : asciiLower '.' ∈ l.map asciiLower := List.mem_map_of_mem _ hmem
  by_cases h1 : l.map asciiLower = ['i', 'n', 'f']
      ∨ l.map asciiLower = ['i', 'n', 'f', 'i', 'n', 'i', 't', 'y']
  · rcases h1 with h1 | h1 <;> rw [h1] at hmap <;> exact absurd hmap (by decide)
  · rw [if_neg h1] at h
    by_cases h2 : l.map asciiLower = ['n', 'a', 'n']
    · rw [h2] at hmap; exact absurd hmap (by decide)
    · rw [if_neg h2] at h; cases h

/-- A successful mantissa parse consumes at most one dot. -/
theorem floatMantissa_count_dot {l : List Char} {n k : Nat} {r : List Char}
    (h : floatMantissa? l = some (n, k, r)) : l.count '.' ≤ r.count '.' + 1 := by
  unfold floatMantissa? at h
  split at h
  next ip k1 rest heq =>
    have hcnt := floatDigitPart_count_dot heq
    split at h
    · rw [Option.some.injEq] at h
      have hr : r = [] := congrArg (fun p => p.2.2) h.symm
      subst hr
      simp at hcnt
      omega
    next c rest2 =>
      split at h
      next hdot =>
        subst hdot
        split at h
        next fp k2 rest3 heq2 =>
          rw [Option.some.injEq] at h
          have hr : r = rest3 := congrArg (fun p => p.2.2) h.symm
          subst hr
          have hcnt2 := floatDigitPart_count_dot heq2
          rw [List.count_cons] at hcnt
          simp at hcnt
          omega
        next heq2 =>
          rw [Option.some.injEq] at h
          have hr : r = rest2 := congrArg (fun p => p.2.2) h.symm
          subst hr
          rw [List.count_cons] at hcnt
          simp at hcnt
          omega
      next hdot =>
        rw [Option.some.injEq] at h
        have hr : r = c :: rest2 := congrArg (fun p => p.2.2) h.symm
        subst hr
        omega
  next heq =>
    split at h
    · cases h
    next c rest2 =>
      split at h
      next hdot =>
        subst hdot
        split at h
        next fp k2 rest3 heq2 =>
          rw [Option.some.injEq] at h
          have hr : r = rest3 := congrArg (fun p => p.2.2) h.symm
          subst hr
          have hcnt2 := floatDigitPart_count_dot heq2
          rw [List.count_cons]
          simp
          omega
        next heq2 => cases h
      next hdot => cases h

/-- The unsigned float body fails on any string containing at least
two dots. -/
theorem pyFloatBody_two_dots {l : List Char} (h : 2 ≤ l.count '.') :
    pyFloatBody? l = none := by
  unfold pyFloatBody?
  cases hs : floatSpecial? l with
  | some v => exact absurd (floatSpecial_no_dot hs) (by omega)
  | none =>
    cases hm : floatMantissa? l with
    | none => rfl
    | some t =>
      obtain ⟨n, k, rest⟩ := t
      have hb := floatMantissa_count_dot hm
      have hr : 1 ≤ rest.count '.' := by omega
      cases rest with
      | nil => simp at hr
      | cons c rest2 =>
        show (if c = 'e' ∨ c = 'E' then
            match floatExpPart? rest2 with
            | some e => some (PyFloat.finite (floatScale n k e))
            | none => none
          else none) = none
        by_cases he : c = 'e' ∨ c = 'E'
        · rw [if_pos he]
          cases hexp : floatExpPart? rest2 with
          | none => rfl
          | some e =>
            exfalso
            have h0 := floatExpPart_no_dot hexp
            rw [List.count_cons, h0] at hr
            rcases he with he | he <;> subst he <;> simp at hr
        · rw [if_neg he]

/-- The float parser fails on any string containing at least two
dots. -/
theorem pyFloat_two_dots {l : List Char} (h : 2 ≤ l.count '.') :
    pyFloat? l = none := by
  have hs : 2 ≤ (stripWs l).count '.' := by
    rw [count_stripWs '.' (by decide) l]; exact h
  unfold pyFloat?
  cases hd : stripWs l with
  | nil => rfl
  | cons c rest =>
    rw [hd] at hs
    rw [List.count_cons] at hs
    show (if c = '+' then pyFloatBody? rest
      else if c = '-' then (pyFloatBody? rest).map pyFloatNeg
      else pyFloatBody? (c :: rest)) = none
    by_cases hplus : c = '+'
    · subst hplus
      rw [if_pos rfl]
      exact pyFloatBody_two_dots (by simp at hs; omega)
    · by_cases hminus : c = '-'
      · subst hminus
        rw [if_neg (by decide), if_pos rfl]
        rw [pyFloatBody_two_dots (by simp at hs; omega)]
        rfl
      · rw [if_neg hplus, if_neg hminus]
        exact pyFloatBody_two_dots (by rw [List.count_cons]; omega)



/-- A dot-decimal string is not comma-decimal, and has a dot. -/
theorem hasDot_not_comma {l : List Char} (h : hasDotDecimal l = true) :
    hasCommaDecimal l = false ∧ (l.contains ',' && !l.contains '.') = false := by
  unfold hasDotDecimal at h
  unfold hasCommaDecimal
  rw [Bool.and_eq_true] at h
  obtain ⟨hdot, hgt⟩ := h
  rw [decide_eq_true_iff] at hgt
  constructor
  · by_cases hcomma : l.contains ',' = true
    · rw [hcomma, Bool.true_and]
      rw [decide_eq_false_iff_not]
      omega
    · rw [Bool.eq_false_iff.mpr hcomma, Bool.false_and]
  · rw [hdot]
    simp

/-- A comma-decimal string is not dot-decimal. -/
theorem hasComma_not_dot {l : List Char} (h : hasCommaDecimal l = true) :
    hasDotDecimal l = false ∧ (l.contains '.' && !l.contains ',') = false := by
  unfold hasCommaDecimal at h
  unfold hasDotDecimal
  rw [Bool.and_eq_true] at h
  obtain ⟨hcomma, hgt⟩ := h
  rw [decide_eq_true_iff] at hgt
  constructor
  · by_cases hdot : l.contains '.' = true
    · rw [hdot, Bool.true_and]
      rw [decide_eq_false_iff_not]
      omega
    · rw [Bool.eq_false_iff.mpr hdot, Bool.false_and]
  · rw [hcomma]
    simp

/-- A contained character has a positive count. -/
theorem count_ge_one {l : List Char} {a : Char} (h : l.contains a = true) :
    1 ≤ l.count a :=
  List.count_pos_iff.mpr (by simpa using h)

/-- A valid `amountFinish` result carries a parsed value that Python
does not compare as `<= 0` (positive when finite; every comparison
with NaN is false, so NaN also passes the check). -/
theorem amountFinish_valid {raw : String} {cur : Option String} {locale : String}
    {n : List Char} (h : (amountFinish raw cur locale n).valid = true) :
    ∃ v : PyFloat, (amountFinish raw cur locale n).amount = some v
      ∧ pyFloatLeZero v = false := by
  unfold amountFinish at h ⊢
  cases hp : pyFloat? n with
  | none => rw [hp] at h; simp at h
  | some v =>
    rw [hp] at h
    by_cases hv : pyFloatLeZero v = true
    · exfalso
      have h2 : (if pyFloatLeZero v = true then
            ({ amount := none, raw_amount := raw, currency := cur, locale := none,
               valid := false } : AmountResult)
          else
            { amount := some v, raw_amount := raw, currency := cur,
              locale := some locale, valid := true }).valid = true := h
      rw [if_pos hv] at h2
      simp at h2
    · refine ⟨v, ?_, Bool.eq_false_iff.mpr hv⟩
      have h2 : (if pyFloatLeZero v = true then
            ({ amount := none, raw_amount := raw, currency := cur, locale := none,
               valid := false } : AmountResult)
          else
            { amount := some v, raw_amount := raw, currency := cur,
              locale := some locale, valid := true }).amount = some v := by
        rw [if_neg hv]
      exact h2

/-- Counterexample for C4.  In `"1.234,56"` both separators occur and
the comma appears last, so by the claim the comma should be the
decimal separator (value 1234.56, as the German-hint path indeed
produces); but under the default hints the function converts commas to
dots without removing the existing dot and the parse fails, returning
the failure marker instead of the comma-decimal value. -/
theorem C4_counterexample :
    (normalize_amount "1.234,56" none "en").valid = false
    ∧ (normalize_amount "1.234,56" none "en").amount = none
    ∧ (normalize_amount "1.234,56" (some "EUR") "de").amount
        = some (PyFloat.finite (mkRat 123456 100))
    ∧ (normalize_amount "1.234,56" (some "EUR") "de").valid = true := by
  exact ⟨by decide, by decide, by decide, by decide⟩

/-- C4 (amended).  `normalize_amount` applies the last-separator rule
at the normalization level: when the comma appears last, the EUR or
German hint removes dots and turns commas into decimal points; when
the dot appears last, both hint paths remove commas and keep the dot
as the decimal point; but when the comma appears last under the
default hints and a dot is also present, the parse fails and the
failure marker is returned instead of the comma-decimal value.  An
unparsable string or a parsed value comparing `<= 0` yields
`valid = false` with no value; a valid result carries a parsed value
that Python does not compare as `<= 0` -- which, because every
comparison with NaN is false, includes NaN: the input `"nan"` is
accepted as valid with amount NaN. -/
theorem C4_normalize_amount_amended :
    (∀ (s : String) (cur : Option String) (lang : String),
      s ≠ "" → s ≠ "PARSING FAILED" →
      (cur = some "EUR" ∨ lang = "de") →
      hasCommaDecimal (cleanAmount s) = true →
      normalize_amount s cur lang
        = amountFinish s cur "de_DE"
            (replaceChar ',' '.' (removeChar '.' (cleanAmount s))))
    ∧ (∀ (s : String) (cur : Option String) (lang : String),
      s ≠ "" → s ≠ "PARSING FAILED" →
      hasDotDecimal (cleanAmount s) = true →
      normalize_amount s cur lang
        = amountFinish s cur
            (if cur = some "EUR" ∨ lang = "de" then "de_DE" else "en_US")
            (removeChar ',' (cleanAmount s)))
    ∧ (∀ (s : String) (cur : Option String) (lang : String),
      ¬ (cur = some "EUR" ∨ lang = "de") →
      hasCommaDecimal (cleanAmount s) = true →
      (cleanAmount s).contains '.' = true →
      (normalize_amount s cur lang).valid = false
        ∧ (normalize_amount s cur lang).amount = none)
    ∧ (∀ (s : String) (cur : Option String) (lang : String),
      (normalize_amount s cur lang).valid = true →
      ∃ v : PyFloat, (normalize_amount s cur lang).amount = some v
        ∧ pyFloatLeZero v = false)
    ∧ ((normalize_amount "nan" none "en").valid = true
        ∧ (normalize_amount "nan" none "en").amount = some PyFloat.nan) := by
  refine ⟨?_, ?_, ?_, ?_, ?_⟩
  · intro s cur lang hne hnp hde hcl
    unfold normalize_amount
    rw [if_neg (by simp [hne, hnp]), if_pos hde]
    have hsep : sepNormalize (cleanAmount s) true
        = replaceChar ',' '.' (removeChar '.' (cleanAmount s)) := by
      unfold sepNormalize
      simp [hcl]
    rw [hsep]
  · intro s cur lang hne hnp hdl
    unfold normalize_amount
    rw [if_neg (by simp [hne, hnp])]
    obtain ⟨hc1, hc2⟩ := hasDot_not_comma hdl
    by_cases hde : cur = some "EUR" ∨ lang = "de"
    · rw [if_pos hde, if_pos hde]
      have hsep : sepNormalize (cleanAmount s) true = removeChar ',' (cleanAmount s) := by
        unfold sepNormalize
        rw [if_pos (by decide), if_neg (by rw [hc1, hc2]; simp)]
      rw [hsep]
    · rw [if_neg hde, if_neg hde]
      have hsep : sepNormalize (cleanAmount s) false = removeChar ',' (cleanAmount s) := by
        unfold sepNormalize
        simp [hdl]
      rw [hsep]
  · intro s cur lang hen hcl hdot
    unfold normalize_amount
    by_cases hfirst : s = "" ∨ s = "PARSING FAILED"
    · rw [if_pos hfirst]
      exact ⟨rfl, rfl⟩
    · rw [if_neg hfirst, if_neg hen]
      obtain ⟨hd1, hd2⟩ := hasComma_not_dot hcl
      have hcomma : (cleanAmount s).contains ',' = true := by
        unfold hasCommaDecimal at hcl
        exact (Bool.and_eq_true .. |>.mp hcl).1
      have hsep : sepNormalize (cleanAmount s) false
          = replaceChar ',' '.' (cleanAmount s) := by
        unfold sepNormalize
        rw [if_neg (by decide), if_neg (by rw [hd1, hd2]; simp)]
      rw [hsep]
      have hnone : pyFloat? (replaceChar ',' '.' (cleanAmount s)) = none := by
        apply pyFloat_two_dots
        rw [count_dot_replaceChar]
        have := count_ge_one hdot
        have := count_ge_one hcomma
        omega
      unfold amountFinish
      rw [hnone]
      exact ⟨rfl, rfl⟩
  · intro s cur lang hv
    unfold normalize_amount at hv ⊢
    by_cases hfirst : s = "" ∨ s = "PARSING FAILED"
    · rw [if_pos hfirst] at hv
      simp at hv
    · rw [if_neg hfirst] at hv ⊢
      by_cases hde : cur = some "EUR" ∨ lang = "de"
      · rw [if_pos hde] at hv ⊢
        exact amountFinish_valid hv
      · rw [if_neg hde] at hv ⊢
        exact amountFinish_valid hv
  · exact ⟨by decide, by decide⟩

/-- Witness for C4 (amended) at concrete inputs for the
hypothesis-bearing parts. -/
theorem C4_witness :
    normalize_amount "1.299,50" (some "EUR") "de"
      = amountFinish "1.299,50" (some "EUR") "de_DE"
          (replaceChar ',' '.' (removeChar '.' (cleanAmount "1.299,50")))
    ∧ normalize_amount "1,299.50" none "en"
      = amountFinish "1,299.50" none
          (if (none : Option String) = some "EUR" ∨ "en" = "de" then "de_DE" else "en_US")
          (removeChar ',' (cleanAmount "1,299.50"))
    ∧ ((normalize_amount "7.654,32" none "en").valid = false
        ∧ (normalize_amount "7.654,32" none "en").amount = none)
    ∧ (∃ v : PyFloat, (normalize_amount "2.50" none "en").amount = some v
        ∧ pyFloatLeZero v = false) := by
  refine ⟨?_, ?_, ?_, ?_⟩
  · exact C4_normalize_amount_amended.1 "1.299,50" (some "EUR") "de" (by decide)
      (by decide) (Or.inl rfl) (by decide)
  · exact C4_normalize_amount_amended.2.1 "1,299.50" none "en" (by decide) (by decide)
      (by decide)
  · exact C4_normalize_amount_amended.2.2.1 "7.654,32" none "en" (by decide)
      (by decide) (by decide)
  · exact C4_normalize_amount_amended.2.2.2.1 "2.50" none "en" (by decide)

/-- Round trip for valid character codes. -/
theorem char_toNat_ofNat (n : Nat) (h : Nat.isValidChar n) :
    (Char.ofNat n).toNat = n := by
  unfold Char.ofNat
  rw [dif_pos h]
  rfl

/-- Letter characters have code points in the ASCII letter ranges. -/
theorem pyAlpha_bounds {c : Char} (h : pyAlpha c = true) :
    (65 ≤ c.toNat ∧ c.toNat ≤ 90) ∨ (97 ≤ c.toNat ∧ c.toNat ≤ 122) := by
  simpa [pyAlpha, Bool.or_eq_true, Bool.and_eq_true, decide_eq_true_iff] using h

/-- A letter is not a digit. -/
theorem pyAlpha_not_digit {c : Char} (h : pyAlpha c = true) : pyDigit c = false := by
  have hb := pyAlpha_bounds h
  rw [Bool.eq_false_iff]
  intro hd
  have := pyDigit_bounds hd
  omega

/-- A digit is not a letter. -/
theorem pyDigit_not_alpha {c : Char} (h : pyDigit c = true) : pyAlpha c = false := by
  have hb := pyDigit_bounds h
  rw [Bool.eq_false_iff]
  intro ha
  have := pyAlpha_bounds ha
  omega

/-- A digit is not whitespace. -/
theorem pyDigit_not_ws {c : Char} (h : pyDigit c = true) : pyWs c = false := by
  simp only [pyWs, Bool.or_eq_false_iff, decide_eq_false_iff_not]
  refine ⟨⟨⟨⟨⟨?_, ?_⟩, ?_⟩, ?_⟩, ?_⟩, ?_⟩ <;>
    (intro he; subst he; exact absurd h (by decide))

/-- The uppercase image of a letter lies in the uppercase range. -/
theorem asciiUpper_toNat {c : Char} (h : pyAlpha c = true) :
    65 ≤ (asciiUpper c).toNat ∧ (asciiUpper c).toNat ≤ 90 := by
  have hb := pyAlpha_bounds h
  unfold asciiUpper
  by_cases hl : 97 ≤ c.toNat ∧ c.toNat ≤ 122
  · rw [if_pos hl]
    have hv : Nat.isValidChar (c.toNat - 32) := Or.inl (by omega)
    rw [char_toNat_ofNat _ hv]
    omega
  · rw [if_neg hl]
    omega

/-- Base-36 letter values lie between 10 and 35. -/
theorem letterVal36_bounds {c : Char} (h : pyAlpha c = true) :
    10 ≤ letterVal36 c ∧ letterVal36 c ≤ 35 := by
  have := asciiUpper_toNat h
  unfold letterVal36
  omega

/-- The table digit characters are digits with the expected value. -/
theorem digitChar_spec {d : Nat} (h : d ≤ 9) :
    pyDigit (digitChar d) = true ∧ digitVal (digitChar d) = d := by
  interval_cases d <;> exact ⟨by decide, by decide⟩

/-- The expansion of an alphanumeric character consists of digits. -/
theorem expandChar_digits {c : Char} (h : pyAlnum c = true) :
    (expandChar c).all pyDigit = true := by
  unfold expandChar
  by_cases ha : pyAlpha c = true
  · rw [if_pos ha]
    have hb := letterVal36_bounds ha
    have h1 := digitChar_spec (d := letterVal36 c / 10) (by omega)
    have h2 := digitChar_spec (d := letterVal36 c % 10) (by omega)
    simp [h1.1, h2.1]
  · rw [if_neg ha]
    have hd : pyDigit c = true := by
      rcases Bool.or_eq_true .. |>.mp (by simpa [pyAlnum] using h) with h' | h'
      · exact absurd h' ha
      · exact h'
    simp [hd]

/-- The expansion of a character is never empty. -/
theorem expandChar_ne_nil (c : Char) : expandChar c ≠ [] := by
  unfold expandChar
  split <;> simp

/-- Folding the decimal accumulator over one expansion performs one
IBAN step. -/
theorem foldl_expandChar {c : Char} (h : pyAlnum c = true) (acc : Nat) :
    (expandChar c).foldl (fun a x => a * 10 + digitVal x) acc = ibanStep acc c := by
  unfold expandChar ibanStep
  by_cases ha : pyAlpha c = true
  · rw [if_pos ha, if_neg (by simp [pyAlpha_not_digit ha])]
    have hb := letterVal36_bounds ha
    have h1 := digitChar_spec (d := letterVal36 c / 10) (by omega)
    have h2 := digitChar_spec (d := letterVal36 c % 10) (by omega)
    simp only [List.foldl_cons, List.foldl_nil, h1.2, h2.2]
    omega
  · have hd : pyDigit c = true := by
      rcases Bool.or_eq_true .. |>.mp (by simpa [pyAlnum] using h) with h' | h'
      · exact absurd h' ha
      · exact h'
    rw [if_neg ha, if_pos hd]
    simp

/-- Folding the decimal accumulator over the full expansion of an
alphanumeric list performs the IBAN fold. -/
theorem foldl_expand {l : List Char} (h : l.all pyAlnum = true) :
    ∀ acc : Nat,
      ((l.map expandChar).flatten).foldl (fun a x => a * 10 + digitVal x) acc
        = l.foldl ibanStep acc := by
  induction l with
  | nil => intro acc; rfl
  | cons c t ih =>
    intro acc
    rw [List.all_cons, Bool.and_eq_true] at h
    rw [List.map_cons, List.flatten_cons, List.foldl_append, foldl_expandChar h.1]
    exact ih h.2 (ibanStep acc c)

/-- The full expansion of an alphanumeric list consists of digits. -/
theorem expand_all_digits {l : List Char} (h : l.all pyAlnum = true) :
    ((l.map expandChar).flatten).all pyDigit = true := by
  induction l with
  | nil => rfl
  | cons c t ih =>
    rw [List.all_cons, Bool.and_eq_true] at h
    rw [List.map_cons, List.flatten_cons, List.all_append]
    rw [expandChar_digits h.1, ih h.2]
    rfl

/-- The full expansion of a non-empty list is non-empty. -/
theorem expand_ne_nil {l : List Char} (h : l ≠ []) :
    ((l.map expandChar).flatten) ≠ [] := by
  cases l with
  | nil => exact absurd rfl h
  | cons c t =>
    rw [List.map_cons, List.flatten_cons]
    intro he
    rw [List.append_eq_nil] at he
    exact expandChar_ne_nil c he.1

/-- On an all-digit run the underscore-aware parser is the plain
decimal fold. -/
theorem parseUDigits_digits :
    ∀ (l : List Char) (acc : Nat), l.all pyDigit = true →
      parseUDigits acc l = some (l.foldl (fun a x => a * 10 + digitVal x) acc) := by
  intro l
  induction l with
  | nil => intro acc _; rfl
  | cons c t ih =>
    intro acc h
    rw [List.all_cons, Bool.and_eq_true] at h
    have hu : c ≠ '_' := by
      intro he; subst he; exact absurd h.1 (by decide)
    unfold parseUDigits
    rw [if_neg hu, if_pos h.1]
    rw [ih _ h.2]
    rfl

/-- All-digit lists are kept intact by whitespace stripping. -/
theorem stripWs_digits {l : List Char} (h : l.all pyDigit = true) :
    stripWs l = l := by
  have hsub : ∀ m : List Char, m.all pyDigit = true → m.dropWhile pyWs = m := by
    intro m hm
    cases m with
    | nil => rfl
    | cons c t =>
      rw [List.all_cons, Bool.and_eq_true] at hm
      rw [List.dropWhile_cons_of_neg (by simp [pyDigit_not_ws hm.1])]
  unfold stripWs
  rw [hsub _ h, hsub _ (by simpa [List.all_reverse] using h), List.reverse_reverse]

/-- On a non-empty all-digit string, the Python integer parser returns
the decimal value. -/
theorem pyInt_digits {l : List Char} (h : l.all pyDigit = true) (hne : l ≠ []) :
    pyInt? l = some (digitsVal l) := by
  unfold pyInt?
  rw [stripWs_digits h]
  cases l with
  | nil => exact absurd rfl hne
  | cons c t =>
    rw [List.all_cons, Bool.and_eq_true] at h
    show (if c = '+' then startUDigits t else startUDigits (c :: t))
      = some (digitsVal (c :: t))
    rw [if_neg (show ¬ c = '+' by intro he; subst he; exact absurd h.1 (by decide))]
    show (if pyDigit c = true then parseUDigits (digitVal c) t else none)
      = some (digitsVal (c :: t))
    rw [if_pos h.1, parseUDigits_digits t _ h.2]
    simp [digitsVal]

/-- Under an all-alphanumeric hypothesis the claim-side IBAN value is
always defined and equals the IBAN fold. -/
theorem ibanValue_eq {l : List Char} (h : l.all pyAlnum = true) :
    ibanValue? l = some (l.foldl ibanStep 0) := by
  unfold ibanValue?
  suffices hgen : ∀ (m : List Char) (acc : Nat), m.all pyAlnum = true →
      m.foldl (fun acc c => acc.bind fun n =>
        if pyAlnum c then some (ibanStep n c) else none) (some acc)
        = some (m.foldl ibanStep acc) by
    exact hgen l 0 h
  intro m
  induction m with
  | nil => intro acc _; rfl
  | cons c t ih =>
    intro acc hm
    rw [List.all_cons, Bool.and_eq_true] at hm
    rw [List.foldl_cons, List.foldl_cons]
    show t.foldl _ (if pyAlnum c = true then some (ibanStep acc c) else none) = _
    rw [if_pos hm.1]
    exact ih _ hm.2

/-- Counterexample for C5.  The candidate `"AB12+000000000013"` passes
`validate_iban`: the `+` survives normalization (only spaces and
hyphens are stripped), is not a letter, passes through the letter
expansion unchanged, and Python's `int` accepts a leading `+` sign, so
the checksum evaluates on 13101112, which is congruent to 1 mod 97.
The claim's description rejects it: the rotated, letter-mapped string
is not a digit concatenation, so no number is obtained. -/
theorem C5_counterexample :
    validate_iban "AB12+000000000013" = true
    ∧ ibanClaimAccepts "AB12+000000000013" = false := by
  exact ⟨by decide, by decide⟩

/-- C5 (amended).  For every candidate whose normalized form is purely
alphanumeric, `validate_iban` accepts iff, after stripping spaces and
hyphens and uppercasing, the length is within [15,34], the first two
characters are letters, the next two are digits, and the number
obtained by rotating the first four characters to the end and mapping
each letter to its two-digit base-36 value is congruent to 1 modulo
97.  (Candidates whose normalized form contains characters such as a
sign, whitespace or underscores at positions tolerated by Python's
lenient `int` parsing can be accepted by the code although the claim's
digit-concatenation description assigns them no number; see the
counterexample.) -/
theorem C5_validate_iban_amended (s : String)
    (h : (normalizeIban s).all pyAlnum = true) :
    validate_iban s = ibanClaimAccepts s := by
  by_cases hs : s = ""
  · subst hs; decide
  · simp only [validate_iban, ibanClaimAccepts]
    rw [if_neg hs]
    by_cases hlen : (normalizeIban s).length < 15 ∨ 34 < (normalizeIban s).length
    · rw [if_pos hlen]
      have h1 : (decide (15 ≤ (normalizeIban s).length)
          && decide ((normalizeIban s).length ≤ 34)) = false := by
        rcases hlen with h' | h' <;> simp <;> omega
      rw [h1]
      simp
    · rw [if_neg hlen]
      push_neg at hlen
      have h1 : (decide (15 ≤ (normalizeIban s).length)
          && decide ((normalizeIban s).length ≤ 34)) = true := by
        simp [hlen.1, hlen.2]
      by_cases halpha : ((normalizeIban s).take 2).all pyAlpha = true
      · rw [if_neg (not_not_intro halpha)]
        by_cases hdig : (((normalizeIban s).drop 2).take 2).all pyDigit = true
        · rw [if_neg (not_not_intro hdig)]
          have hre : ((normalizeIban s).drop 4 ++ (normalizeIban s).take 4).all
              pyAlnum = true := by
            rw [List.all_append, Bool.and_eq_true]
            constructor
            · rw [List.all_eq_true] at h ⊢
              intro x hx
              exact h x (List.mem_of_mem_drop hx)
            · rw [List.all_eq_true] at h ⊢
              intro x hx
              exact h x (List.mem_of_mem_take hx)
          have hrene : (normalizeIban s).drop 4 ++ (normalizeIban s).take 4 ≠ [] := by
            apply List.ne_nil_of_length_pos
            rw [List.length_append, List.length_drop, List.length_take]
            omega
          have hint : pyInt? ((((normalizeIban s).drop 4
                ++ (normalizeIban s).take 4).map expandChar).flatten)
              = some (((normalizeIban s).drop 4
                  ++ (normalizeIban s).take 4).foldl ibanStep 0) := by
            rw [pyInt_digits (expand_all_digits hre) (expand_ne_nil hrene)]
            unfold digitsVal
            rw [foldl_expand hre]
          rw [hint, ibanValue_eq hre]
          simp [h1, halpha, hdig]
        · rw [if_pos hdig]
          rw [Bool.eq_false_iff.mpr hdig]
          simp
      · rw [if_pos halpha]
        rw [Bool.eq_false_iff.mpr halpha]
        simp

/-- Witness for C5 (amended) at the standard example IBAN, whose
normalized form is alphanumeric. -/
theorem C5_witness :
    validate_iban "DE89 3704 0044 0532 0130 00"
      = ibanClaimAccepts "DE89 3704 0044 0532 0130 00" :=
  C5_validate_iban_amended "DE89 3704 0044 0532 0130 00" (by decide)
